import Mathlib

/-!
Verification development for the FlowForge Transform Engine
(`src/modules/transform.py`): a shallow embedding of the Catalog of
DataFrame operations, the in-memory history ledger, and the typo
suggestion heuristic, together with theorems settling the frozen claims.

Modelling conventions:
* A pandas DataFrame is a list of column names plus a list of rows
  (each row a list of cell values).
* Cell values are `Value`: `null` models a pandas missing value
  (float NaN: it renders as the text "nan" under `astype(str)` and is
  truthy under `astype(bool)`); floats are idealized as rationals.
* Python exceptions are explicit: each operation body is a total
  function into `OpOutcome` with an `exc` constructor for a raised and
  caught exception, an `earlyReturn` constructor for the validation
  `return df, msg` paths, and a `success` constructor for the path that
  logs a history record and returns the transformed frame.
* Calculated-column expressions are embedded as an AST (the source
  passes a Python string to `eval` after textual substitution; we embed
  the evaluable arithmetic core).
* Regex extraction and datetime parsing are embedded by simplified
  recognizers (a literal-substring matcher and a `YYYY-MM-DD`
  recognizer); no claim depends on the full regex or date grammar.
-/

/-- A cell value of a pandas column. `null` is a missing value (NaN). -/
inductive Value where
  | null
  | int (n : Int)
  | float (q : Rat)
  | str (s : String)
  | bool (b : Bool)
  | date (s : String)
deriving DecidableEq

/-- A row of a DataFrame: one cell per column. -/
abbrev Row := List Value

/-- In-memory table: ordered column names plus rows of cells. -/
structure DataFrame where
  cols : List String
  rows : List Row
deriving DecidableEq

/-- `len(df)`: number of rows. -/
def DataFrame.nrows (df : DataFrame) : Nat := df.rows.length

/-- `len(df.columns)`: number of columns. -/
def DataFrame.ncols (df : DataFrame) : Nat := df.cols.length

/-- Index of a column name in a list of column names. -/
def idxOfName : List String → String → Option Nat
  | [], _ => none
  | c :: cs, n => if c = n then some 0 else (idxOfName cs n).map (· + 1)

/-- Index of a named column in the frame. -/
def DataFrame.colIdx (df : DataFrame) (c : String) : Option Nat :=
  idxOfName df.cols c

/-- Cell of a row at a column index (missing cells read as null). -/
def cellAt (r : Row) (i : Nat) : Value := r.getD i .null

/-- The values of the named column, top to bottom (`df[c]`). -/
def DataFrame.col (df : DataFrame) (c : String) : List Value :=
  match df.colIdx c with
  | some i => df.rows.map (fun r => cellAt r i)
  | none => []

/-- Is the value a missing value? -/
def Value.isNull : Value → Bool
  | .null => true
  | _ => false

/-- The table is rectangular: every row has one cell per column. -/
def DataFrame.rect (df : DataFrame) : Bool :=
  df.rows.all (fun r => r.length == df.cols.length)

/-- Replace the cells of column index `i` by `f` applied to each cell
(`df[c] = df[c].map(f)` style column assignment). -/
def DataFrame.mapColAt (df : DataFrame) (i : Nat) (f : Value → Value) : DataFrame :=
  { df with rows := df.rows.map (fun r => r.set i (f (cellAt r i))) }

/-- Assign a full list of values to an existing column index. -/
def DataFrame.setColAt (df : DataFrame) (i : Nat) (vals : List Value) : DataFrame :=
  { df with rows := df.rows.zipWith (fun r v => r.set i v) vals }

/-- Append a brand-new column with the given values. -/
def DataFrame.appendCol (df : DataFrame) (c : String) (vals : List Value) : DataFrame :=
  { cols := df.cols ++ [c], rows := df.rows.zipWith (fun r v => r ++ [v]) vals }

/-- `df[new] = vals`: overwrite the column if it exists, else append it. -/
def DataFrame.setCol (df : DataFrame) (c : String) (vals : List Value) : DataFrame :=
  match df.colIdx c with
  | some i => df.setColAt i vals
  | none => df.appendCol c vals

/-- Columns of `names` that are not columns of `df` (in `names` order,
with repeats kept, as the source's list comprehensions produce). -/
def missingCols (df : DataFrame) (names : List String) : List String :=
  names.filter (fun c => ¬ c ∈ df.cols)

/-- Python `str.upper` (ASCII model). -/
def pyUpper (s : String) : String := ⟨s.data.map Char.toUpper⟩

/-- Python `str.lower` (ASCII model). -/
def pyLower (s : String) : String := ⟨s.data.map Char.toLower⟩

/-- Helper for `pyTitle`: the flag records whether the previous
character was alphabetic. -/
def pyTitleAux : List Char → Bool → List Char
  | [], _ => []
  | c :: cs, prev =>
    (if c.isAlpha then (if prev then c.toLower else c.toUpper) else c) ::
      pyTitleAux cs c.isAlpha

/-- Python `str.title`: capitalize the first letter of each
alphabetic run, lowercase the rest. -/
def pyTitle (s : String) : String := ⟨pyTitleAux s.data false⟩

/-- Python `str.strip`: drop whitespace from both ends. -/
def pyStrip (s : String) : String :=
  ⟨((s.data.dropWhile Char.isWhitespace).reverse.dropWhile Char.isWhitespace).reverse⟩

/-- Does `needle` occur as a contiguous run inside `hay`? -/
def occursIn : List Char → List Char → Bool
  | n, [] => n.isEmpty
  | n, c :: t => n.isPrefixOf (c :: t) || occursIn n t

/-- Substring test: does `hay` contain `needle`? -/
def strContains (hay needle : String) : Bool := occursIn needle.data hay.data

/-- Python `str.startswith`. -/
def strStarts (s p : String) : Bool := p.data.isPrefixOf s.data

/-- Python `str.endswith`. -/
def strEnds (s p : String) : Bool := p.data.isSuffixOf s.data

/-- `sep.join(l)` for nonempty pieces, as used in the source's
f-strings. -/
def joinSep (sep : String) : List String → String
  | [] => ""
  | [x] => x
  | x :: y :: xs => x ++ sep ++ joinSep sep (y :: xs)

/-- Python repr of a name in single quotes. -/
def sqName (c : String) : String := "'" ++ c ++ "'"

/-- Python repr of a list of strings. -/
def pyListRepr (l : List String) : String :=
  "[" ++ joinSep ", " (l.map sqName) ++ "]"

/-- Repr of a pandas object Index, as `str(KeyError(Index(...)))`
renders it in `drop_duplicates`. -/
def pandasIndexRepr (l : List String) : String :=
  "Index(" ++ pyListRepr l ++ ", dtype='object')"

/-- `str(KeyError("['a'] not in index"))`: the repr keeps the double
quotes around the message string. -/
def keyErrNotInIndex (missing : List String) : String :=
  "\"" ++ pyListRepr missing ++ " not in index\""

/-- Python repr of a dict of strings (used in ledger detail strings). -/
def pyDictRepr (pairs : List (String × String)) : String :=
  "\x7b" ++ joinSep ", " (pairs.map (fun p => sqName p.1 ++ ": " ++ sqName p.2)) ++ "\x7d"

/-- Unique names in first-occurrence order (`Index.unique`). -/
def dedupKeepFirst : List String → List String
  | [] => []
  | x :: xs => x :: (dedupKeepFirst xs).filter (fun y => y ≠ x)

/-- Boolean code-point order on strings (`sorted` over an Index). -/
def strLeB (a b : String) : Bool := decide (a ≤ b)

/-- Stable insertion into a sorted list: `x` goes before the first
element `y` with `le x y`. -/
def insertLe (le : α → α → Bool) (x : α) : List α → List α
  | [] => [x]
  | y :: ys => if le x y then x :: y :: ys else y :: insertLe le x ys

/-- Stable insertion sort (ties keep their original order, which is
the observable contract of the pandas multi-key lexsort). -/
def isortLe (le : α → α → Bool) : List α → List α
  | [] => []
  | x :: xs => insertLe le x (isortLe le xs)

/-- Numeric reading of a value: Python booleans count as 0/1. -/
def numOfVal : Value → Option Rat
  | .int n => some (n : Rat)
  | .float q => some q
  | .bool b => some (if b then 1 else 0)
  | _ => none

/-- Rank used only to totalize cross-kind comparisons (pandas raises
on cross-kind comparisons; they occur on no claim path). -/
def Value.typeRank : Value → Nat
  | .null => 3
  | .int _ => 0
  | .float _ => 0
  | .bool _ => 0
  | .str _ => 1
  | .date _ => 2

/-- Three-way comparison of rationals. -/
def cmpRat (a b : Rat) : Ordering := if a < b then .lt else if b < a then .gt else .eq

/-- Three-way comparison of strings (code-point lexicographic). -/
def cmpStr (a b : String) : Ordering := if a < b then .lt else if b < a then .gt else .eq

/-- Three-way comparison of naturals. -/
def cmpNat (a b : Nat) : Ordering := if a < b then .lt else if b < a then .gt else .eq

/-- Total comparison of cell values: numerics by value, text by
code points, cross-kind by rank. -/
def cmpValue (a b : Value) : Ordering :=
  match numOfVal a, numOfVal b with
  | some x, some y => cmpRat x y
  | _, _ =>
    match a, b with
    | .str s, .str t => cmpStr s t
    | .date s, .date t => cmpStr s t
    | _, _ => cmpNat a.typeRank b.typeRank

/-- One sort-key comparison: missing values sort last regardless of
direction (`na_position='last'`), otherwise the value comparison,
flipped for a descending key. -/
def keyCmp (asc : Bool) (a b : Value) : Ordering :=
  if a.isNull then (if b.isNull then .eq else .gt)
  else if b.isNull then .lt
  else if asc then cmpValue a b else (cmpValue a b).swap

/-- Lexicographic left-to-right comparison of two rows on the given
(column index, ascending) keys. -/
def rowCmp : List (Nat × Bool) → Row → Row → Ordering
  | [], _, _ => .eq
  | (i, asc) :: ks, r1, r2 =>
    match keyCmp asc (cellAt r1 i) (cellAt r2 i) with
    | .eq => rowCmp ks r1 r2
    | o => o

/-- Boolean form of the row order used by the stable sort. -/
def rowLe (ks : List (Nat × Bool)) (a b : Row) : Bool :=
  rowCmp ks a b != Ordering.gt

/-- Python `==` between cells: NaN equals nothing, numerics compare by
value (True == 1), text by equality, kinds never mix. -/
def pyEq (a b : Value) : Bool :=
  match numOfVal a, numOfVal b with
  | some x, some y => x == y
  | _, _ =>
    match a, b with
    | .str s, .str t => s == t
    | .date s, .date t => s == t
    | _, _ => false

/-- `astype(str)` rendering of a cell. A missing value is a float NaN
and renders as the text "nan"; rationals idealize floats, rendered as
`num/den` (no claim depends on the float rendering). -/
def pyStr : Value → String
  | .null => "nan"
  | .int n => toString n
  | .float q => toString q.num ++ "/" ++ toString q.den
  | .str s => s
  | .bool b => if b then "True" else "False"
  | .date s => s

/-- Digits-only reading of a char run into a natural number. -/
def natOfDigitsAux : List Char → Nat → Option Nat
  | [], acc => some acc
  | c :: cs, acc =>
    if c.isDigit then natOfDigitsAux cs (acc * 10 + (c.toNat - 48)) else none

/-- Nonempty digits-only reading. -/
def natOfDigits (cs : List Char) : Option Nat :=
  if cs.isEmpty then none else natOfDigitsAux cs 0

/-- Unsigned numeric literal: digits, optionally with a decimal
point. `"1"` reads as an integer, `"1.5"` and `"1."` as floats. -/
def parseUnsignedNum (cs : List Char) : Option Value :=
  match cs.span (fun c => c ≠ '.') with
  | (ip, []) => (natOfDigits ip).map (fun n => .int n)
  | (ip, _ :: fp) =>
    if fp.isEmpty then
      (natOfDigits ip).map (fun n => .float (n : Rat))
    else
      match natOfDigits (if ip.isEmpty then ['0'] else ip), natOfDigits fp with
      | some a, some b => some (.float ((a : Rat) + (b : Rat) / ((10 : Rat) ^ fp.length)))
      | _, _ => none

/-- Signed numeric literal with surrounding whitespace tolerated, as
`pd.to_numeric` accepts. -/
def parseNumStr (s : String) : Option Value :=
  match (pyStrip s).data with
  | '-' :: rest =>
    (parseUnsignedNum rest).map (fun v =>
      match v with
      | .int n => .int (-n)
      | .float q => .float (-q)
      | w => w)
  | cs => parseUnsignedNum cs

/-- `pd.to_numeric(errors='coerce')` on one cell: numerics pass
through (booleans as 0/1), parseable text parses, everything else
becomes a missing value. -/
def toNumericVal : Value → Value
  | .null => .null
  | .int n => .int n
  | .float q => .float q
  | .bool b => .int (if b then 1 else 0)
  | .str s => match parseNumStr s with | some v => v | none => .null
  | .date _ => .null

/-- Two-digit field reading bounded to `[lo, hi]`. -/
def twoDigitIn (a b : Char) (lo hi : Nat) : Bool :=
  a.isDigit && b.isDigit &&
    (let n := (a.toNat - 48) * 10 + (b.toNat - 48); lo ≤ n && n ≤ hi)

/-- Simplified datetime recognizer standing in for the pandas date
parser: accepts exactly `YYYY-MM-DD` with a plausible month and day. -/
def parseDateStr (s : String) : Option String :=
  match s.data with
  | [y1, y2, y3, y4, '-', m1, m2, '-', d1, d2] =>
    if y1.isDigit && y2.isDigit && y3.isDigit && y4.isDigit &&
        twoDigitIn m1 m2 1 12 && twoDigitIn d1 d2 1 31 then some s else none
  | _ => none

/-- `pd.to_datetime(errors='coerce')` on one cell: dates pass,
recognizable text parses, everything else coerces to missing. -/
def toDatetimeVal : Value → Value
  | .date s => .date s
  | .str s => match parseDateStr s with | some c => .date c | none => .null
  | _ => .null

/-- `astype(bool)` on one cell: Python truthiness, with a missing
value (float NaN) truthy. -/
def toBoolVal : Value → Value
  | .null => .bool true
  | .int n => .bool (n ≠ 0)
  | .float q => .bool (q ≠ 0)
  | .str s => .bool (s ≠ "")
  | .bool b => .bool b
  | .date _ => .bool true

/-- Length of the common run of the two suffixes. -/
def commonRun : List Char → List Char → Nat
  | x :: xs, y :: ys => if x = y then commonRun xs ys + 1 else 0
  | _, _ => 0

/-- `difflib.SequenceMatcher.find_longest_match` (no junk, which is
the regime of the source's vocabulary): the longest matching run,
ties resolved to the earliest start in `a`, then in `b`. -/
def findLongestMatch (a b : List Char) : Nat × Nat × Nat :=
  (List.range a.length).foldl (fun best i =>
    (List.range b.length).foldl (fun best j =>
      let k := commonRun (a.drop i) (b.drop j)
      if best.2.2 < k then (i, j, k) else best) best) (0, 0, 0)

/-- Total size of `difflib`'s matching blocks: recursively take the
longest match and recurse on both sides. The fuel argument only
bounds the recursion depth; `a.length` levels always suffice. -/
def matchingTotal : Nat → List Char → List Char → Nat
  | 0, _, _ => 0
  | fuel + 1, a, b =>
    let (i, j, k) := findLongestMatch a b
    if k = 0 then 0
    else
      k + matchingTotal fuel (a.take i) (b.take j) +
        matchingTotal fuel (a.drop (i + k)) (b.drop (j + k))

/-- Matched-character total entering `SequenceMatcher.ratio`. -/
def simT (a b : List Char) : Nat := matchingTotal (a.length + 1) a b

/-- A similarity ratio as an unreduced fraction `(2*M, len(a)+len(b))`
(kept as a pair so that comparisons stay in `Nat`). -/
def ratioPair (a b : List Char) : Nat × Nat := (2 * simT a b, a.length + b.length)

/-- `ratio() >= cutoffN/cutoffD`, by cross-multiplication; `difflib`
defines the ratio of two empty sequences as 1. -/
def ratioGeFrac (p : Nat × Nat) (cn cd : Nat) : Bool :=
  if p.2 = 0 then decide (cn ≤ cd) else decide (cn * p.2 ≤ cd * p.1)

/-- Descending comparison on `(ratio, word)` pairs, matching
`heapq.nlargest` on `(score, word)` tuples. -/
def scoreGe (u v : (Nat × Nat) × String) : Bool :=
  let a := u.1.1 * v.1.2
  let b := v.1.1 * u.1.2
  if a = b then decide (v.2 ≤ u.2) else decide (b < a)

/-- `difflib.get_close_matches(word, possibilities, n, cutoff)`:
filter by ratio at least the cutoff (the quick-ratio prefilters are
upper bounds, hence equivalent), order by score descending (ties by
word descending), keep the best `n`. The matcher runs with
`seq1 = possibility`, `seq2 = word`, as `get_close_matches` does. -/
def getCloseMatches (word : String) (possibilities : List String)
    (n : Nat) (cn cd : Nat) : List String :=
  let scored := possibilities.filterMap (fun x =>
    let p := ratioPair x.data word.data
    if ratioGeFrac p cn cd then some (p, x) else none)
  ((isortLe scoreGe scored).take n).map (fun sc => sc.2)

/-- One record of the in-memory history ledger
(`log_transformation`); the wall-clock timestamp field is omitted. -/
structure HistoryRecord where
  operation : String
  details : String
  rows_before : Nat
  rows_after : Nat
  cols_before : Nat
  cols_after : Nat
  rows_changed : Int
  cols_changed : Int
deriving DecidableEq

/-- The `DataTransformer` state: its `transformation_history` list. -/
structure Transformer where
  history : List HistoryRecord
deriving DecidableEq

/-- `DataTransformer.log_transformation`: append one record with the
computed delta fields. -/
def logTransformation (t : Transformer) (operation details : String)
    (rb ra cb ca : Nat) : Transformer :=
  { history := t.history ++
      [⟨operation, details, rb, ra, cb, ca, (ra : Int) - (rb : Int), (ca : Int) - (cb : Int)⟩] }

/-- Result of one operation body inside its `try` block:
`success` reaches the `log_transformation` call and the final return,
`earlyReturn` is a validation `return df, msg`, and `exc` is a raised
exception caught by the `except` handler. -/
inductive OpOutcome where
  | success (details : String) (df' : DataFrame) (msg : String)
  | earlyReturn (msg : String)
  | exc (e : String)
deriving DecidableEq

/-- Did the body reach the logging path? -/
def OpOutcome.isSuccess : OpOutcome → Bool
  | .success _ _ _ => true
  | _ => false

/-- The shared `try`/`except` shell of every Catalog operation: on
success append the ledger record (with the before/after dimensions of
the input and result frames) and return the result; otherwise return
the input frame unchanged with the plain or prefixed message. -/
def runOp (opKind errPre : String) (t : Transformer) (df : DataFrame) :
    OpOutcome → Transformer × DataFrame × String
  | .success details df' msg =>
    (logTransformation t opKind details df.nrows df'.nrows df.ncols df'.ncols, df', msg)
  | .earlyReturn msg => (t, df, msg)
  | .exc e => (t, df, errPre ++ e)

/-- The `keep` parameter of `remove_duplicates` (`never` is Python's
`keep=False`). -/
inductive Keep where
  | first | last | never
deriving DecidableEq

/-- Rendering of `keep` in the detail string. -/
def Keep.render : Keep → String
  | .first => "first"
  | .last => "last"
  | .never => "False"

/-- Deduplication keeping the first occurrence of every key. -/
def dropDupFirstAux (key : Row → List Value) : List Row → List (List Value) → List Row
  | [], _ => []
  | r :: rs, seen =>
    if key r ∈ seen then dropDupFirstAux key rs seen
    else r :: dropDupFirstAux key rs (key r :: seen)

/-- `DataFrame.drop_duplicates` keep semantics over a key projection. -/
def dropDupRows (key : Row → List Value) (keep : Keep) (rows : List Row) : List Row :=
  match keep with
  | .first => dropDupFirstAux key rows []
  | .last => (dropDupFirstAux key rows.reverse []).reverse
  | .never => rows.filter (fun r => (rows.filter (fun r2 => key r2 == key r)).length == 1)

/-- Key projection of a row onto named columns. -/
def subsetKey (df : DataFrame) (cs : List String) (r : Row) : List Value :=
  cs.map (fun c => match df.colIdx c with | some i => cellAt r i | none => .null)

/-- Body of `remove_duplicates`. A truthy `columns` list selects the
subset branch; pandas raises `KeyError(Index(missing))` for subset
names that are not columns (the missing names unique and sorted, as
`Index.difference` yields). -/
def removeDuplicatesCore (df : DataFrame) (columns : Option (List String))
    (keep : Keep) : OpOutcome :=
  let cs := columns.getD []
  if ¬ cs.isEmpty then
    let diff := isortLe strLeB (dedupKeepFirst (missingCols df cs))
    if ¬ diff.isEmpty then .exc (pandasIndexRepr diff)
    else
      let rows' := dropDupRows (subsetKey df cs) keep df.rows
      let details := "Based on columns: " ++ joinSep ", " cs ++ ", keep='" ++ keep.render ++ "'"
      .success details { df with rows := rows' }
        ("Removed " ++ toString (df.nrows - rows'.length) ++ " duplicate rows")
  else
    let rows' := dropDupRows id keep df.rows
    let details := "All columns, keep='" ++ keep.render ++ "'"
    .success details { df with rows := rows' }
      ("Removed " ++ toString (df.nrows - rows'.length) ++ " duplicate rows")

/-- The column values at an index. -/
def colValsAt (df : DataFrame) (i : Nat) : List Value :=
  df.rows.map (fun r => cellAt r i)

/-- Count of missing cells over the given column indices. -/
def countNullsAt (df : DataFrame) (idxs : List Nat) : Nat :=
  (df.rows.map (fun r => (idxs.filter (fun i => (cellAt r i).isNull)).length)).sum

/-- Replace the values of column index `i` by a whole-column function. -/
def DataFrame.withColAt (df : DataFrame) (i : Nat) (f : List Value → List Value) : DataFrame :=
  df.setColAt i (f (colValsAt df i))

/-- Fill the missing cells of column `i` with `v`. -/
def fillColWith (df : DataFrame) (i : Nat) (v : Value) : DataFrame :=
  df.mapColAt i (fun x => if x.isNull then v else x)

/-- Is the column numeric in dtype terms (`select_dtypes(np.number)`)?
Value-level approximation: all cells integer, float or missing. -/
def numericColAt (df : DataFrame) (i : Nat) : Bool :=
  (colValsAt df i).all (fun v => match v with
    | .null => true | .int _ => true | .float _ => true | _ => false)

/-- Mean of the non-missing cells, if any. -/
def meanAt (df : DataFrame) (i : Nat) : Option Rat :=
  let ns := (colValsAt df i).filterMap numOfVal
  if ns.isEmpty then none else some (ns.sum / (ns.length : Rat))

/-- Median of the non-missing cells, if any. -/
def medianAt (df : DataFrame) (i : Nat) : Option Rat :=
  let ns := isortLe (fun a b => decide (a ≤ b)) ((colValsAt df i).filterMap numOfVal)
  let n := ns.length
  if n = 0 then none
  else if n % 2 = 1 then some (ns.getD (n / 2) 0)
  else some ((ns.getD (n / 2 - 1) 0 + ns.getD (n / 2) 0) / 2)

/-- `Series.mode()[0]`: the most frequent non-missing value, smallest
first on ties (pandas sorts the modes). -/
def modeAt (vals : List Value) : Option Value :=
  let nn := vals.filter (fun v => ¬ v.isNull)
  let counts := fun v => (nn.filter (fun w => w == v)).length
  let maxc := (nn.map counts).foldl Nat.max 0
  (nn.filter (fun v => counts v == maxc)).foldl (fun acc v =>
    match acc with
    | none => some v
    | some m => if cmpValue v m == .lt then some v else some m) none

/-- Forward fill of one column: each missing cell takes the nearest
earlier non-missing value. -/
def ffillVals : List Value → Option Value → List Value
  | [], _ => []
  | v :: vs, carry =>
    if v.isNull then (carry.getD .null) :: ffillVals vs carry
    else v :: ffillVals vs (some v)

/-- The known missing-value methods of `handle_missing_values`. -/
def knownMissingMethods : List String :=
  ["drop", "fill_mean", "fill_median", "fill_mode", "fill_value", "forward_fill", "backward_fill"]

/-- Body of `handle_missing_values`. Target columns default to all
(a supplied empty list is falsy, hence also all). A missing target
name raises `KeyError` at the `df[target_columns]` read, before any
branch. A method matching no branch leaves the local variable
`details` unbound, so the logging call raises `UnboundLocalError`
("cannot access local variable 'details' where it is not associated
with a value" on Python 3.11+; "local variable 'details' referenced
before assignment" on older interpreters), which the handler
catches. -/
def handleMissingCore (df : DataFrame) (method : String)
    (columns : Option (List String)) (fill_value : Option Value) : OpOutcome :=
  let target := match columns with
    | some cs => if cs.isEmpty then df.cols else cs
    | none => df.cols
  let miss := dedupKeepFirst (missingCols df target)
  if ¬ miss.isEmpty then .exc (keyErrNotInIndex miss)
  else
    let idxs := target.filterMap (fun c => df.colIdx c)
    let missingBefore := countNullsAt df idxs
    let branch : Except String (Option (DataFrame × String)) :=
      if method = "drop" then
        .ok (some ({ df with rows := df.rows.filter (fun r => idxs.all (fun i => !(cellAt r i).isNull)) },
          "Dropped rows with missing values in " ++ toString target.length ++ " columns"))
      else if method = "fill_mean" then
        let nums := idxs.filter (fun i => numericColAt df i)
        .ok (some (nums.foldl (fun d i =>
            match meanAt df i with
            | some q => fillColWith d i (.float q)
            | none => d) df,
          "Filled with mean for " ++ toString nums.length ++ " numeric columns"))
      else if method = "fill_median" then
        let nums := idxs.filter (fun i => numericColAt df i)
        .ok (some (nums.foldl (fun d i =>
            match medianAt df i with
            | some q => fillColWith d i (.float q)
            | none => d) df,
          "Filled with median for " ++ toString nums.length ++ " numeric columns"))
      else if method = "fill_mode" then
        .ok (some (idxs.foldl (fun d i =>
            match modeAt (colValsAt d i) with
            | some v => fillColWith d i v
            | none => d) df,
          "Filled with mode for " ++ toString target.length ++ " columns"))
      else if method = "fill_value" then
        match fill_value with
        | none => .error "Must specify a fill 'value' or 'method'."
        | some v =>
          .ok (some (idxs.foldl (fun d i => fillColWith d i v) df,
            "Filled with '" ++ pyStr v ++ "' for " ++ toString target.length ++ " columns"))
      else if method = "forward_fill" then
        .ok (some (idxs.foldl (fun d i => d.withColAt i (fun vs => ffillVals vs none)) df,
          "Forward fill for " ++ toString target.length ++ " columns"))
      else if method = "backward_fill" then
        .ok (some (idxs.foldl (fun d i =>
            d.withColAt i (fun vs => (ffillVals vs.reverse none).reverse)) df,
          "Backward fill for " ++ toString target.length ++ " columns"))
      else
        .ok none
    match branch with
    | .error e => .exc e
    | .ok none =>
      .exc "cannot access local variable 'details' where it is not associated with a value"
    | .ok (some (df', details)) =>
      let missingAfter := countNullsAt df' idxs
      .success details df'
        ("Handled " ++ toString ((missingBefore : Int) - (missingAfter : Int)) ++
          " missing values using " ++ method)

/-- Non-missing comparable values: numerics by value, text by code
points; other combinations raise `TypeError` in pandas. -/
def pyCmpVal (a b : Value) : Except String Ordering :=
  match numOfVal a, numOfVal b with
  | some x, some y => .ok (cmpRat x y)
  | _, _ =>
    match a, b with
    | .str s, .str t => .ok (cmpStr s t)
    | .date s, .date t => .ok (cmpStr s t)
    | _, _ => .error "ordered comparison not supported between these operand types"

/-- One elementwise ordered comparison: any comparison against a
missing value is False (NaN semantics). -/
def pyRelOp (op : String) (a b : Value) : Except String Bool :=
  if a.isNull || b.isNull then .ok false
  else
    match pyCmpVal a b with
    | .error e => .error e
    | .ok o =>
      .ok (match op with
        | ">" => o == Ordering.gt
        | "<" => o == Ordering.lt
        | ">=" => o != Ordering.lt
        | "<=" => o != Ordering.gt
        | _ => false)

/-- Vectorized ordered-comparison filter; a `TypeError` anywhere
aborts the whole comparison, as the pandas column operation does. -/
def relFilter (op : String) (i : Nat) (value : Value) : List Row → Except String (List Row)
  | [] => .ok []
  | r :: rs =>
    match pyRelOp op (cellAt r i) value with
    | .error e => .error e
    | .ok keep =>
      match relFilter op i value rs with
      | .error e => .error e
      | .ok rest => .ok (if keep then r :: rest else rest)

/-- Body of `filter_data`. The three string operators apply
`astype(str)` first, so a missing cell is compared as the text "nan". -/
def filterCore (df : DataFrame) (column operator : String) (value : Value) : OpOutcome :=
  match df.colIdx column with
  | none => .earlyReturn ("Column '" ++ column ++ "' not found in DataFrame")
  | some i =>
    let details := "Column '" ++ column ++ "' " ++ operator ++ " '" ++ pyStr value ++ "'"
    let finish := fun (rows : List Row) =>
      OpOutcome.success details { df with rows := rows }
        ("Filtered to " ++ toString rows.length ++ " rows where " ++ details)
    if operator = "==" then finish (df.rows.filter (fun r => pyEq (cellAt r i) value))
    else if operator = "!=" then finish (df.rows.filter (fun r => !pyEq (cellAt r i) value))
    else if operator = ">" ∨ operator = "<" ∨ operator = ">=" ∨ operator = "<=" then
      match relFilter operator i value df.rows with
      | .ok rows => finish rows
      | .error e => .exc e
    else if operator = "contains" then
      finish (df.rows.filter (fun r => strContains (pyStr (cellAt r i)) (pyStr value)))
    else if operator = "startswith" then
      finish (df.rows.filter (fun r => strStarts (pyStr (cellAt r i)) (pyStr value)))
    else if operator = "endswith" then
      finish (df.rows.filter (fun r => strEnds (pyStr (cellAt r i)) (pyStr value)))
    else .earlyReturn ("Unsupported operator: " ++ operator)

/-- The strict comparison numpy's sort kernels apply to column values. -/
def npLt (a b : Value) : Bool := cmpValue a b == Ordering.lt

/-- Entry of the index array being sorted. -/
def tGet (t : List Nat) (i : Nat) : Nat := t.getD i 0

/-- Column value at a row index. -/
def vAt (v : List Value) (idx : Nat) : Value := v.getD idx Value.null

/-- Swap two entries of the index array. -/
def lswap (t : List Nat) (i j : Nat) : List Nat :=
  let x := tGet t i
  let y := tGet t j
  (t.set i y).set j x

/-- Inner shift loop of the numpy argsort insertion sort
(`npysort/quicksort.c`, small-segment branch): move larger entries one
slot right, returning the array and the insertion slot. -/
def npInsShift (v : List Value) (pl : Nat) (vp : Value) :
    List Nat → Nat → Nat → List Nat × Nat
  | t, pj, 0 => (t, pj)
  | t, pj, fuel + 1 =>
    if pl < pj ∧ npLt vp (vAt v (tGet t (pj - 1))) then
      npInsShift v pl vp (t.set pj (tGet t (pj - 1))) (pj - 1) fuel
    else (t, pj)

/-- Outer loop of the numpy argsort insertion sort over segment
`[pl, pr]`. -/
def npInsLoop (v : List Value) (pl pr : Nat) : List Nat → Nat → Nat → List Nat
  | t, _, 0 => t
  | t, pi, fuel + 1 =>
    if pi ≤ pr then
      let vi := tGet t pi
      let vp := vAt v vi
      let res := npInsShift v pl vp t pi pi
      npInsLoop v pl pr (res.1.set res.2 vi) (pi + 1) fuel
    else t

/-- numpy argsort insertion sort on segment `[pl, pr]`. -/
def npInsertionSort (v : List Value) (t : List Nat) (pl pr : Nat) : List Nat :=
  npInsLoop v pl pr t (pl + 1) (t.length + 1)

/-- `do ++pi; while (LT(v[*pi], vp))` of the partition loop. -/
def npScanRight (v : List Value) (vp : Value) (t : List Nat) : Nat → Nat → Nat
  | pi, 0 => pi
  | pi, fuel + 1 =>
    if npLt (vAt v (tGet t (pi + 1))) vp then npScanRight v vp t (pi + 1) fuel
    else pi + 1

/-- `do --pj; while (LT(vp, v[*pj]))` of the partition loop. -/
def npScanLeft (v : List Value) (vp : Value) (t : List Nat) : Nat → Nat → Nat
  | pj, 0 => pj
  | pj, fuel + 1 =>
    if npLt vp (vAt v (tGet t (pj - 1))) then npScanLeft v vp t (pj - 1) fuel
    else pj - 1

/-- Hoare partition exchange loop; returns the array and the final
`pi`. -/
def npPartLoop (v : List Value) (vp : Value) : List Nat → Nat → Nat → Nat → List Nat × Nat
  | t, pi, _, 0 => (t, pi)
  | t, pi, pj, fuel + 1 =>
    let pi2 := npScanRight v vp t pi (t.length + 2)
    let pj2 := npScanLeft v vp t pj (t.length + 2)
    if pj2 ≤ pi2 then (t, pi2)
    else npPartLoop v vp (lswap t pi2 pj2) pi2 pj2 fuel

/-- One median-of-three partition step of numpy's argsort quicksort on
segment `[pl, pr]`: returns the array and the pivot's final slot. -/
def npPartition (v : List Value) (t : List Nat) (pl pr : Nat) : List Nat × Nat :=
  let pm := pl + ((pr - pl) / 2)
  let t := if npLt (vAt v (tGet t pm)) (vAt v (tGet t pl)) then lswap t pm pl else t
  let t := if npLt (vAt v (tGet t pr)) (vAt v (tGet t pm)) then lswap t pr pm else t
  let t := if npLt (vAt v (tGet t pm)) (vAt v (tGet t pl)) then lswap t pm pl else t
  let vp := vAt v (tGet t pm)
  let t := lswap t pm (pr - 1)
  let res := npPartLoop v vp t pl (pr - 1) (t.length + 2)
  (lswap res.1 res.2 (pr - 1), res.2)

/-- Sift-down of numpy's argsort heapsort (`npysort/heapsort.c`), on
the one-based view `a[k] = t[b + k - 1]` of segment base `b`. -/
def npSift (v : List Value) (b : Nat) (tmp n : Nat) : List Nat → Nat → Nat → Nat → List Nat
  | t, i, _, 0 => t.set (b + i - 1) tmp
  | t, i, j, fuel + 1 =>
    if j ≤ n then
      let j := if j < n ∧ npLt (vAt v (tGet t (b + j - 1))) (vAt v (tGet t (b + j))) then
        j + 1 else j
      if npLt (vAt v tmp) (vAt v (tGet t (b + j - 1))) then
        npSift v b tmp n (t.set (b + i - 1) (tGet t (b + j - 1))) j (j + j) fuel
      else t.set (b + i - 1) tmp
    else t.set (b + i - 1) tmp

/-- Heap construction phase (`for l = n/2 .. 1`). -/
def npHeapBuild (v : List Value) (b n : Nat) : List Nat → Nat → Nat → List Nat
  | t, _, 0 => t
  | t, l, fuel + 1 =>
    if l = 0 then t
    else npHeapBuild v b n (npSift v b (tGet t (b + l - 1)) n t l (l + l) (n + 2)) (l - 1) fuel

/-- Heap extraction phase (`for ; n > 1 ;`). -/
def npHeapExtract (v : List Value) (b : Nat) : List Nat → Nat → Nat → List Nat
  | t, _, 0 => t
  | t, n, fuel + 1 =>
    if n ≤ 1 then t
    else
      let tmp := tGet t (b + n - 1)
      let t := t.set (b + n - 1) (tGet t b)
      npHeapExtract v b (npSift v b tmp (n - 1) t 1 2 (n + 2)) (n - 1) fuel

/-- numpy argsort heapsort on segment `[pl, pr]` (the introsort's
depth-exhaustion fallback). -/
def npHeapsortSeg (v : List Value) (t : List Nat) (pl pr : Nat) : List Nat :=
  let n := pr - pl + 1
  npHeapExtract v pl (npHeapBuild v pl n t (n / 2) (n + 2)) n (n + 2)

/-- Driver loop of numpy's introspective argsort quicksort
(`npysort/quicksort.c`, `aquicksort`): partition segments longer than
`SMALL_QUICKSORT = 15` (median of three, larger side pushed on the
stack), insertion-sort the small ones, fall back to heapsort when the
depth budget is spent. -/
def npAqsLoop (v : List Value) :
    List Nat → Nat → Nat → List (Nat × Nat) → Int → Nat → List Nat
  | t, _, _, _, _, 0 => t
  | t, pl, pr, stk, depth, fuel + 1 =>
    if 15 < pr - pl then
      if depth < 0 then
        let t2 := npHeapsortSeg v t pl pr
        match stk with
        | [] => t2
        | (l, r) :: rest => npAqsLoop v t2 l r rest (depth - 1) fuel
      else
        let res := npPartition v t pl pr
        if res.2 - pl < pr - res.2 then
          npAqsLoop v res.1 pl (res.2 - 1) ((res.2 + 1, pr) :: stk) (depth - 1) fuel
        else
          npAqsLoop v res.1 (res.2 + 1) pr ((pl, res.2 - 1) :: stk) (depth - 1) fuel
    else
      let t2 := npInsertionSort v t pl pr
      match stk with
      | [] => t2
      | (l, r) :: rest => npAqsLoop v t2 l r rest depth fuel

/-- `values.argsort(kind='quicksort')`: numpy's default scalar
introsort over indices. It is not stable: ties are reordered by the
partition exchanges (SIMD dispatch on some CPUs differs in the exact
permutation but is equally without a stability guarantee). -/
def npArgsortQuick (v : List Value) : List Nat :=
  let n := v.length
  if n = 0 then []
  else npAqsLoop v (List.range n) 0 (n - 1) [] (2 * (Nat.log2 n : Int)) (2 * n + 10)

/-- `pandas.core.sorting.nargsort(items, kind='quicksort', ascending,
na_position='last')`, the single-sort-column path of `sort_values`:
missing values are split off and appended at the end, the rest argsorted
by numpy quicksort (reversed before and after for a descending key). -/
def nargsortIdx (vals : List Value) (asc : Bool) : List Nat :=
  let idx := List.range vals.length
  let nonNanIdx := idx.filter (fun i => !(vAt vals i).isNull)
  let nanIdx := idx.filter (fun i => (vAt vals i).isNull)
  let nn := if asc then nonNanIdx else nonNanIdx.reverse
  let order := npArgsortQuick (nn.map (fun i => vAt vals i))
  let indexer := order.map (fun k => nn.getD k 0)
  (if asc then indexer else indexer.reverse) ++ nanIdx

/-- Body of `sort_data`: validate the key columns (enumerating every
missing name), validate the flag-list length, then delegate to
`df.sort_values(by=columns, ascending=asc)`. pandas dispatches on the
number of keys: more than one key uses the stable lexsort (modelled by
the stable insertion sort on the lexicographic row order,
`na_position='last'`); exactly one key uses `nargsort` with the
default `kind='quicksort'`, numpy's unstable introsort. -/
def sortCore (df : DataFrame) (columns : List String)
    (ascending : Option (List Bool)) : OpOutcome :=
  let invalid := missingCols df columns
  if ¬ invalid.isEmpty then
    .earlyReturn ("Columns not found: " ++ joinSep ", " invalid)
  else
    let asc := match ascending with
      | none => List.replicate columns.length true
      | some l => l
    if asc.length ≠ columns.length then
      .earlyReturn "Length of ascending list must match columns list"
    else
      let df2 :=
        if columns.length = 1 then
          let i := (df.colIdx (columns.headD "")).getD 0
          let indexer := nargsortIdx (colValsAt df i) (asc.headD true)
          { df with rows := indexer.map (fun k => df.rows.getD k []) }
        else
          let keys := (columns.zip asc).map (fun p => ((df.colIdx p.1).getD 0, p.2))
          { df with rows := isortLe (rowLe keys) df.rows }
      let details := "Sorted by: " ++ joinSep ", "
        ((columns.zip asc).map (fun p => p.1 ++ " (" ++ (if p.2 then "asc" else "desc") ++ ")"))
      .success details df2
        ("Sorted data by " ++ toString columns.length ++ " columns")

/-- Body of `rename_columns`: validate every source name, then bulk
rename. -/
def renameCore (df : DataFrame) (mapping : List (String × String)) : OpOutcome :=
  let invalid := missingCols df (mapping.map Prod.fst)
  if ¬ invalid.isEmpty then
    .earlyReturn ("Columns not found: " ++ joinSep ", " invalid)
  else
    let df' := { df with cols := df.cols.map (fun c => ((mapping.lookup c).getD c)) }
    .success ("Renamed " ++ toString mapping.length ++ " columns") df'
      ("Renamed " ++ toString mapping.length ++ " columns")

/-- Body of `drop_columns`: validate every name, then remove the named
columns and their cells. -/
def dropColsCore (df : DataFrame) (columns : List String) : OpOutcome :=
  let invalid := missingCols df columns
  if ¬ invalid.isEmpty then
    .earlyReturn ("Columns not found: " ++ joinSep ", " invalid)
  else
    let df' : DataFrame :=
      { cols := df.cols.filter (fun c => ¬ c ∈ columns),
        rows := df.rows.map (fun r =>
          ((df.cols.zip r).filter (fun p => ¬ p.1 ∈ columns)).map Prod.snd) }
    .success ("Dropped columns: " ++ joinSep ", " columns) df'
      ("Dropped " ++ toString columns.length ++ " columns")

/-- One-column type conversion. Integer conversion coerces through
`to_numeric(errors='coerce')` (non-parseable becomes missing) and then
`astype('Int64')`, which raises if a surviving value is fractional;
datetime coerces non-parseable to missing; text and categorical always
succeed; an unrecognized target kind matches no branch and is counted
as a (no-op) success by the source. -/
def convertCol (ty : String) (vals : List Value) : Except String (List Value) :=
  if ty = "int" then
    if (vals.map toNumericVal).all (fun v => match v with
        | .null => true | .int _ => true | .float q => q.den == 1 | _ => false) then
      .ok ((vals.map toNumericVal).map
        (fun v => match v with | .float q => .int q.num | w => w))
    else .error "cannot safely cast non-equivalent float64 to int64"
  else if ty = "float" then .ok (vals.map toNumericVal)
  else if ty = "string" then .ok (vals.map (fun v => .str (pyStr v)))
  else if ty = "datetime" then .ok (vals.map toDatetimeVal)
  else if ty = "boolean" then .ok (vals.map toBoolVal)
  else .ok vals

/-- One iteration of the conversion loop: a missing column or a
failing conversion appends its own error and leaves the frame as it
was; a success updates only its own column. -/
def convertStep (df : DataFrame) (acc : DataFrame × List String × List String)
    (p : String × String) : DataFrame × List String × List String :=
  let (cur, errs, succ) := acc
  if ¬ p.1 ∈ df.cols then
    (cur, errs ++ ["Column '" ++ p.1 ++ "' not found"], succ)
  else
    match convertCol p.2 (cur.col p.1) with
    | .ok vals => (cur.setCol p.1 vals, errs, succ ++ [p.1 ++ " → " ++ p.2])
    | .error e =>
      (cur, errs ++ ["Failed to convert '" ++ p.1 ++ "' to " ++ p.2 ++ ": " ++ e], succ)

/-- Body of `convert_data_types`: attempt every mapped column in
order, then log and report a count of successes plus the collected
per-column errors. This body always reaches the logging call. -/
def convertCore (df : DataFrame) (m : List (String × String)) : OpOutcome :=
  let res := m.foldl (convertStep df) (df, [], [])
  let msg := "Successfully converted " ++ toString res.2.2.length ++ " columns" ++
    (if res.2.1.isEmpty then "" else ". Errors: " ++ joinSep "; " res.2.1)
  .success ("Converted " ++ toString res.2.2.length ++ " columns") res.1 msg

/-- Embedded calculated-column expression: the evaluable core of the
source's Python expression string after column-name substitution. -/
inductive Expr where
  | colRef (name : String)
  | litInt (n : Int)
  | litStr (s : String)
  | add (a b : Expr)
  | sub (a b : Expr)
  | mul (a b : Expr)
  | div (a b : Expr)
deriving DecidableEq

/-- Column names referenced by an expression. -/
def exprRefs : Expr → List String
  | .colRef c => [c]
  | .litInt _ => []
  | .litStr _ => []
  | .add a b => exprRefs a ++ exprRefs b
  | .sub a b => exprRefs a ++ exprRefs b
  | .mul a b => exprRefs a ++ exprRefs b
  | .div a b => exprRefs a ++ exprRefs b

/-- Rendering of the substituted expression string for the detail
line: column references appear as `df_result['c']`. -/
def exprRender : Expr → String
  | .colRef c => "df_result['" ++ c ++ "']"
  | .litInt n => toString n
  | .litStr s => sqName s
  | .add a b => "(" ++ exprRender a ++ " + " ++ exprRender b ++ ")"
  | .sub a b => "(" ++ exprRender a ++ " - " ++ exprRender b ++ ")"
  | .mul a b => "(" ++ exprRender a ++ " * " ++ exprRender b ++ ")"
  | .div a b => "(" ++ exprRender a ++ " / " ++ exprRender b ++ ")"

/-- Is the value an exact integer (Python int or bool)? -/
def intLike : Value → Bool
  | .int _ => true
  | .bool _ => true
  | _ => false

/-- One vectorized binary operation on cells: missing propagates (NaN
arithmetic), text concatenates under `+`, numerics compute (integer
results stay integers, true division is float, division by zero
idealized as missing), anything else is a `TypeError`. -/
def evalBinOp (op : String) (a b : Value) : Except String Value :=
  if a.isNull || b.isNull then .ok .null
  else
    match op, a, b with
    | "+", .str s, .str t => .ok (.str (s ++ t))
    | _, _, _ =>
      match numOfVal a, numOfVal b with
      | some x, some y =>
        if op = "/" then
          .ok (if y = 0 then .null else .float (x / y))
        else
          let q := if op = "+" then x + y else if op = "-" then x - y else x * y
          .ok (if intLike a && intLike b then .int q.num else .float q)
      | _, _ => .error "unsupported operand types in expression"

/-- Row-wise evaluation of an expression. -/
def evalExprRow (df : DataFrame) (r : Row) : Expr → Except String Value
  | .colRef c =>
    match df.colIdx c with
    | some i => .ok (cellAt r i)
    | none => .error ("name '" ++ c ++ "' is not defined")
  | .litInt n => .ok (.int n)
  | .litStr s => .ok (.str s)
  | .add a b =>
    match evalExprRow df r a, evalExprRow df r b with
    | .ok x, .ok y => evalBinOp "+" x y
    | .error e, _ => .error e
    | _, .error e => .error e
  | .sub a b =>
    match evalExprRow df r a, evalExprRow df r b with
    | .ok x, .ok y => evalBinOp "-" x y
    | .error e, _ => .error e
    | _, .error e => .error e
  | .mul a b =>
    match evalExprRow df r a, evalExprRow df r b with
    | .ok x, .ok y => evalBinOp "*" x y
    | .error e, _ => .error e
    | _, .error e => .error e
  | .div a b =>
    match evalExprRow df r a, evalExprRow df r b with
    | .ok x, .ok y => evalBinOp "/" x y
    | .error e, _ => .error e
    | _, .error e => .error e

/-- Vectorized evaluation over all rows. -/
def evalExprRows (df : DataFrame) (e : Expr) : List Row → Except String (List Value)
  | [] => .ok []
  | r :: rs =>
    match evalExprRow df r e, evalExprRows df e rs with
    | .ok v, .ok vs => .ok (v :: vs)
    | .error err, _ => .error err
    | _, .error err => .error err

/-- Body of `create_calculated_column`: a reference to an unknown
column is a `NameError` (the textual substitution leaves it bare); an
evaluation `TypeError` is likewise caught; otherwise the new column is
assigned and the record logged. -/
def calcColumnCore (df : DataFrame) (new_column : String) (e : Expr) : OpOutcome :=
  match (exprRefs e).find? (fun c => ¬ c ∈ df.cols) with
  | some c => .exc ("name '" ++ c ++ "' is not defined")
  | none =>
    match evalExprRows df e df.rows with
    | .error err => .exc err
    | .ok vals =>
      .success ("Created '" ++ new_column ++ "' with expression: " ++ exprRender e)
        (df.setCol new_column vals)
        ("Created calculated column '" ++ new_column ++ "'")

/-- The capture-group text of the simplified extraction pattern: the
run between the first `(` and the following `)`. -/
def extractGroupLit (pattern : String) : String :=
  ⟨((pattern.data.dropWhile (fun c => c ≠ '(')).drop 1).takeWhile (fun c => c ≠ ')')⟩

/-- Body of `text_operations`. The four case/whitespace operations
coerce the column to text first (missing becomes the text "nan");
`replace` is literal substring replacement; `extract` appends a
`<column>_extracted` column holding the captured text or missing
(simplified literal matcher), and raises if the pattern has no
capture group. -/
def textOpsCore (df : DataFrame) (column operation old_value new_value pattern : String) :
    OpOutcome :=
  match df.colIdx column with
  | none => .earlyReturn ("Column '" ++ column ++ "' not found")
  | some i =>
    let msg := "Applied " ++ operation ++ " operation to '" ++ column ++ "'"
    let strmap := fun (f : String → String) =>
      df.mapColAt i (fun v => .str (f (pyStr v)))
    if operation = "upper" then
      .success ("Converted '" ++ column ++ "' to uppercase") (strmap pyUpper) msg
    else if operation = "lower" then
      .success ("Converted '" ++ column ++ "' to lowercase") (strmap pyLower) msg
    else if operation = "title" then
      .success ("Converted '" ++ column ++ "' to title case") (strmap pyTitle) msg
    else if operation = "strip" then
      .success ("Stripped whitespace from '" ++ column ++ "'") (strmap pyStrip) msg
    else if operation = "replace" then
      .success ("Replaced '" ++ old_value ++ "' with '" ++ new_value ++ "' in '" ++ column ++ "'")
        (strmap (fun s => s.replace old_value new_value)) msg
    else if operation = "extract" then
      if ¬ pattern.data.any (fun c => c = '(') then
        .exc "pattern contains no capture groups"
      else
        let grp := extractGroupLit pattern
        let vals := (colValsAt df i).map (fun v =>
          if strContains (pyStr v) grp then Value.str grp else Value.null)
        .success ("Extracted pattern '" ++ pattern ++ "' from '" ++ column ++ "'")
          (df.setCol (column ++ "_extracted") vals) msg
    else .earlyReturn ("Unsupported text operation: " ++ operation)

/-- Body of `fix_column_typos`: validate all keys, then rename. -/
def fixColumnTyposCore (df : DataFrame) (corrections : List (String × String)) : OpOutcome :=
  let invalid := missingCols df (corrections.map Prod.fst)
  if ¬ invalid.isEmpty then
    .earlyReturn ("Error: Columns not found: " ++ joinSep ", " invalid)
  else
    let df' := { df with cols := df.cols.map (fun c => ((corrections.lookup c).getD c)) }
    .success ("Fixed column typos: " ++ pyDictRepr corrections) df'
      ("Successfully fixed " ++ toString corrections.length ++ " column name typos")

/-- Body of `fix_data_typos`: validate the column, substitute in a
single simultaneous pass, and count the cells whose original value
equals some correction key. -/
def fixDataTyposCore (df : DataFrame) (column : String)
    (corrections : List (String × String)) : OpOutcome :=
  match df.colIdx column with
  | none => .earlyReturn ("Error: Column '" ++ column ++ "' not found")
  | some i =>
    let df' := df.mapColAt i (fun v =>
      match v with
      | .str s => (match corrections.lookup s with | some nv => .str nv | none => .str s)
      | w => w)
    let changes := (corrections.map (fun p =>
      (df.rows.filter (fun r => pyEq (cellAt r i) (.str p.1))).length)).sum
    .success ("Fixed data typos in '" ++ column ++ "': " ++ pyDictRepr corrections ++
        " (" ++ toString changes ++ " values changed)")
      df'
      ("Successfully fixed " ++ toString corrections.length ++ " typos in column '" ++
        column ++ "' (" ++ toString changes ++ " values changed)")

/-- `DataTransformer.remove_duplicates`. -/
def remove_duplicates (t : Transformer) (df : DataFrame)
    (columns : Option (List String)) (keep : Keep) : Transformer × DataFrame × String :=
  runOp "REMOVE_DUPLICATES" "Error removing duplicates: " t df
    (removeDuplicatesCore df columns keep)

/-- `DataTransformer.handle_missing_values`. -/
def handle_missing_values (t : Transformer) (df : DataFrame) (method : String)
    (columns : Option (List String)) (fill_value : Option Value) :
    Transformer × DataFrame × String :=
  runOp "HANDLE_MISSING" "Error handling missing values: " t df
    (handleMissingCore df method columns fill_value)

/-- `DataTransformer.filter_data`. -/
def filter_data (t : Transformer) (df : DataFrame) (column operator : String)
    (value : Value) : Transformer × DataFrame × String :=
  runOp "FILTER_DATA" "Error filtering data: " t df
    (filterCore df column operator value)

/-- `DataTransformer.sort_data`. -/
def sort_data (t : Transformer) (df : DataFrame) (columns : List String)
    (ascending : Option (List Bool)) : Transformer × DataFrame × String :=
  runOp "SORT_DATA" "Error sorting data: " t df (sortCore df columns ascending)

/-- `DataTransformer.rename_columns`. -/
def rename_columns (t : Transformer) (df : DataFrame)
    (column_mapping : List (String × String)) : Transformer × DataFrame × String :=
  runOp "RENAME_COLUMNS" "Error renaming columns: " t df (renameCore df column_mapping)

/-- `DataTransformer.drop_columns`. -/
def drop_columns (t : Transformer) (df : DataFrame) (columns : List String) :
    Transformer × DataFrame × String :=
  runOp "DROP_COLUMNS" "Error dropping columns: " t df (dropColsCore df columns)

/-- `DataTransformer.convert_data_types`. -/
def convert_data_types (t : Transformer) (df : DataFrame)
    (type_mapping : List (String × String)) : Transformer × DataFrame × String :=
  runOp "CONVERT_TYPES" "Error converting data types: " t df (convertCore df type_mapping)

/-- `DataTransformer.create_calculated_column`. -/
def create_calculated_column (t : Transformer) (df : DataFrame) (new_column : String)
    (expression : Expr) : Transformer × DataFrame × String :=
  runOp "CREATE_COLUMN" "Error creating calculated column: " t df
    (calcColumnCore df new_column expression)

/-- `DataTransformer.text_operations`. The keyword arguments
`old_value`, `new_value` and `pattern` default to the empty string. -/
def text_operations (t : Transformer) (df : DataFrame) (column operation : String)
    (old_value : String := "") (new_value : String := "") (pattern : String := "") :
    Transformer × DataFrame × String :=
  runOp "TEXT_OPERATION" "Error in text operation: " t df
    (textOpsCore df column operation old_value new_value pattern)

/-- `DataTransformer.fix_column_typos`. -/
def fix_column_typos (t : Transformer) (df : DataFrame)
    (corrections : List (String × String)) : Transformer × DataFrame × String :=
  runOp "FIX_COLUMN_TYPOS" "Error fixing column typos: " t df
    (fixColumnTyposCore df corrections)

/-- `DataTransformer.fix_data_typos`. -/
def fix_data_typos (t : Transformer) (df : DataFrame) (column : String)
    (corrections : List (String × String)) : Transformer × DataFrame × String :=
  runOp "FIX_DATA_TYPOS" "Error fixing data typos: " t df
    (fixDataTyposCore df column corrections)

/-- The fixed reference vocabulary of the column-name typo heuristic. -/
def common_words : List String :=
  ["name", "id", "date", "time", "price", "amount", "count", "total", "value", "description"]

/-- `DataTransformer.suggest_typo_fixes` with `column=None`: the
column-name sub-heuristic. For each column, up to 3 vocabulary words
within cutoff 0.6; a column whose lowercase form is in the vocabulary,
or with no candidate, is omitted. -/
def suggest_typo_fixes (df : DataFrame) : List (String × List String) :=
  df.cols.filterMap (fun col =>
    let cands := getCloseMatches (pyLower col) common_words 3 3 5
    if ¬ cands.isEmpty ∧ ¬ (pyLower col) ∈ common_words then some (col, cands)
    else none)

/-- The sort-key vector of a row: its cells at the sort columns. -/
def sortKeyVec (df : DataFrame) (cols : List String) (r : Row) : List Value :=
  cols.map (fun c => cellAt r ((df.colIdx c).getD 0))

/-- Expected column content after `convert_data_types`: untouched when
unmapped, converted on success, unchanged on a failed conversion. -/
def convertedColSpec (df : DataFrame) (m : List (String × String)) (c : String) :
    List Value :=
  match List.lookup c m with
  | none => df.col c
  | some ty =>
    match convertCol ty (df.col c) with
    | .ok vals => vals
    | .error _ => df.col c

theorem runOp_exc (k p : String) (t : Transformer) (df : DataFrame) (e : String) :
    runOp k p t df (.exc e) = (t, df, p ++ e) := rfl

theorem runOp_earlyReturn (k p : String) (t : Transformer) (df : DataFrame) (m : String) :
    runOp k p t df (.earlyReturn m) = (t, df, m) := rfl

theorem runOp_not_success (k p : String) (t : Transformer) (df : DataFrame)
    (o : OpOutcome) (h : o.isSuccess = false) :
    (runOp k p t df o).1 = t ∧ (runOp k p t df o).2.1 = df := by
  cases o with
  | success d df' m => simp [OpOutcome.isSuccess] at h
  | earlyReturn m => exact ⟨rfl, rfl⟩
  | exc e => exact ⟨rfl, rfl⟩

theorem runOp_success_record (k p : String) (t : Transformer) (df : DataFrame)
    (o : OpOutcome) (h : o.isSuccess = true) :
    ∃ rec : HistoryRecord,
      (runOp k p t df o).1.history = t.history ++ [rec] ∧
      rec.rows_before = df.nrows ∧ rec.cols_before = df.ncols ∧
      rec.rows_after = (runOp k p t df o).2.1.nrows ∧
      rec.cols_after = (runOp k p t df o).2.1.ncols ∧
      rec.rows_changed = (rec.rows_after : Int) - (rec.rows_before : Int) ∧
      rec.cols_changed = (rec.cols_after : Int) - (rec.cols_before : Int) := by
  cases o with
  | success d df' m =>
    refine ⟨⟨k, d, df.nrows, df'.nrows, df.ncols, df'.ncols,
      (df'.nrows : Int) - (df.nrows : Int), (df'.ncols : Int) - (df.ncols : Int)⟩,
      rfl, rfl, rfl, rfl, rfl, rfl, rfl⟩
  | earlyReturn m => simp [OpOutcome.isSuccess] at h
  | exc e => simp [OpOutcome.isSuccess] at h

theorem isPrefixOf_self_append (n t : List Char) : n.isPrefixOf (n ++ t) = true := by
  induction n with
  | nil => simp [List.isPrefixOf]
  | cons c cs ih => simp [List.isPrefixOf, ih]

theorem isPrefixOf_extend (n h suf : List Char) (hp : n.isPrefixOf h = true) :
    n.isPrefixOf (h ++ suf) = true := by
  induction n generalizing h with
  | nil => simp [List.isPrefixOf]
  | cons c cs ih =>
    cases h with
    | nil => exact absurd hp (by simp [List.isPrefixOf])
    | cons x xs =>
      simp only [List.cons_append, List.isPrefixOf, Bool.and_eq_true] at hp ⊢
      exact ⟨hp.1, ih xs hp.2⟩

theorem occursIn_nil_left (l : List Char) : occursIn [] l = true := by
  cases l with
  | nil => rfl
  | cons c t => simp [occursIn, List.isPrefixOf]

theorem occursIn_of_isPrefixOf (n h : List Char) (hp : n.isPrefixOf h = true) :
    occursIn n h = true := by
  cases h with
  | nil =>
    cases n with
    | nil => rfl
    | cons c cs => simp [List.isPrefixOf] at hp
  | cons c t => simp [occursIn, hp]

theorem occursIn_append_pre (n pre h : List Char) (hh : occursIn n h = true) :
    occursIn n (pre ++ h) = true := by
  induction pre with
  | nil => exact hh
  | cons c cs ih => simp [occursIn, ih]

theorem occursIn_append_suf (n h suf : List Char) (hh : occursIn n h = true) :
    occursIn n (h ++ suf) = true := by
  induction h with
  | nil =>
    cases n with
    | nil => exact occursIn_nil_left suf
    | cons c cs => simp [occursIn, List.isEmpty] at hh
  | cons c t ih =>
    simp only [occursIn, Bool.or_eq_true] at hh
    rcases hh with hp | ho
    · simp only [List.cons_append, occursIn, Bool.or_eq_true]
      exact Or.inl (isPrefixOf_extend _ _ _ hp)
    · simp only [List.cons_append, occursIn, Bool.or_eq_true]
      exact Or.inr (ih ho)

theorem occursIn_split (n pre suf : List Char) : occursIn n (pre ++ (n ++ suf)) = true :=
  occursIn_append_pre n pre _
    (occursIn_append_suf n n suf (occursIn_of_isPrefixOf n n
      (by simpa using isPrefixOf_self_append n [])))

theorem strData_append (s t : String) : (s ++ t).data = s.data ++ t.data := rfl

theorem strContains_split (pre mid suf : String) :
    strContains (pre ++ mid ++ suf) mid = true := by
  have : (pre ++ mid ++ suf).data = pre.data ++ (mid.data ++ suf.data) := by
    simp [strData_append]
  simp only [strContains, this]
  exact occursIn_split mid.data pre.data suf.data

theorem strContains_refl (s : String) : strContains s s = true := by
  simp only [strContains]
  exact occursIn_of_isPrefixOf _ _ (by simpa using isPrefixOf_self_append s.data [])

theorem strContains_append_pre (p h c : String) (hh : strContains h c = true) :
    strContains (p ++ h) c = true := by
  simp only [strContains, strData_append]
  exact occursIn_append_pre _ _ _ hh

theorem strContains_append_suf (h s c : String) (hh : strContains h c = true) :
    strContains (h ++ s) c = true := by
  simp only [strContains, strData_append]
  exact occursIn_append_suf _ _ _ hh

theorem strContains_sqName (c : String) : strContains (sqName c) c = true :=
  strContains_split "'" c "'"

theorem strContains_joinSep (sep : String) (l : List String) (c x : String)
    (hx : x ∈ l) (hc : strContains x c = true) :
    strContains (joinSep sep l) c = true := by
  induction l with
  | nil => cases hx
  | cons y ys ih =>
    cases ys with
    | nil =>
      rcases List.mem_singleton.mp hx with rfl
      simpa [joinSep] using hc
    | cons z zs =>
      rcases List.mem_cons.mp hx with rfl | hmem
      · show strContains (x ++ sep ++ joinSep sep (z :: zs)) c = true
        exact strContains_append_suf _ _ _ (strContains_append_suf _ _ _ hc)
      · show strContains (y ++ sep ++ joinSep sep (z :: zs)) c = true
        have : y ++ sep ++ joinSep sep (z :: zs) = y ++ (sep ++ joinSep sep (z :: zs)) := by
          simp [String.append_assoc]
        rw [this]
        exact strContains_append_pre _ _ _
          (strContains_append_pre _ _ _ (ih hmem))

theorem mem_dedupKeepFirst (c : String) (l : List String) :
    c ∈ dedupKeepFirst l ↔ c ∈ l := by
  induction l with
  | nil => simp [dedupKeepFirst]
  | cons x xs ih =>
    simp only [dedupKeepFirst, List.mem_cons, List.mem_filter]
    constructor
    · rintro (rfl | ⟨hm, _⟩)
      · exact Or.inl rfl
      · exact Or.inr (ih.mp hm)
    · rintro (rfl | hm)
      · exact Or.inl rfl
      · by_cases hcx : c = x
        · exact Or.inl hcx
        · exact Or.inr ⟨ih.mpr hm, by simpa using hcx⟩

theorem mem_insertLe {α : Type} (le : α → α → Bool) (x a : α) (l : List α) :
    a ∈ insertLe le x l ↔ a = x ∨ a ∈ l := by
  induction l with
  | nil => simp [insertLe]
  | cons y ys ih =>
    simp only [insertLe]
    by_cases h : le x y = true
    · simp [h, List.mem_cons]
    · rw [if_neg h]
      simp only [List.mem_cons, ih]
      tauto

theorem mem_isortLe {α : Type} (le : α → α → Bool) (a : α) (l : List α) :
    a ∈ isortLe le l ↔ a ∈ l := by
  induction l with
  | nil => simp [isortLe]
  | cons x xs ih => simp [isortLe, mem_insertLe, ih]

theorem filter_insertLe_neg {α : Type} (le : α → α → Bool) (p : α → Bool) (x : α)
    (l : List α) (hx : p x = false) :
    (insertLe le x l).filter p = l.filter p := by
  induction l with
  | nil => simp [insertLe, hx]
  | cons y ys ih =>
    simp only [insertLe]
    by_cases h : le x y = true
    · rw [if_pos h]
      simp [List.filter_cons, hx]
    · rw [if_neg h]
      simp only [List.filter_cons]
      cases hy : p y <;> simp [ih]

theorem filter_insertLe_pos {α : Type} (le : α → α → Bool) (p : α → Bool) (x : α)
    (l : List α) (hx : p x = true)
    (hall : ∀ y ∈ l, p y = true → le x y = true) :
    (insertLe le x l).filter p = x :: l.filter p := by
  induction l with
  | nil => simp [insertLe, hx]
  | cons y ys ih =>
    simp only [insertLe]
    by_cases h : le x y = true
    · rw [if_pos h]
      simp [List.filter_cons, hx]
    · rw [if_neg h]
      have hy : p y = false := by
        cases hpy : p y
        · rfl
        · exact absurd (hall y (List.mem_cons_self y ys) hpy) h
      simp only [List.filter_cons, hy]
      simpa [hy] using ih (fun z hz hpz => hall z (List.mem_cons_of_mem y hz) hpz)

theorem filter_isortLe {α : Type} (le : α → α → Bool) (p : α → Bool) (l : List α)
    (hp : ∀ a b : α, p a = true → p b = true → le a b = true) :
    (isortLe le l).filter p = l.filter p := by
  induction l with
  | nil => rfl
  | cons x xs ih =>
    simp only [isortLe]
    cases hx : p x with
    | false =>
      rw [filter_insertLe_neg le p x _ hx, ih]
      simp [List.filter_cons, hx]
    | true =>
      rw [filter_insertLe_pos le p x _ hx (fun y _ hy => hp x y hx hy), ih]
      simp [List.filter_cons, hx]

theorem cmpValue_self (v : Value) : cmpValue v v = .eq := by
  cases v <;>
    simp [cmpValue, numOfVal, cmpRat, cmpStr, cmpNat, Value.typeRank, lt_irrefl]

theorem keyCmp_self (asc : Bool) (v : Value) : keyCmp asc v v = .eq := by
  by_cases h : v.isNull = true
  · simp [keyCmp, h]
  · cases asc <;> simp [keyCmp, h, cmpValue_self, Ordering.swap]

theorem rowCmp_eq_of_keys_eq (ks : List (Nat × Bool)) (r1 r2 : Row)
    (h : ∀ k ∈ ks, cellAt r1 k.1 = cellAt r2 k.1) : rowCmp ks r1 r2 = .eq := by
  induction ks with
  | nil => rfl
  | cons k ks ih =>
    obtain ⟨i, asc⟩ := k
    have hc : cellAt r1 i = cellAt r2 i := h (i, asc) (List.mem_cons_self _ _)
    have ht : rowCmp ks r1 r2 = .eq := ih (fun kk hkk => h kk (List.mem_cons_of_mem _ hkk))
    simp only [rowCmp, hc, keyCmp_self, ht]

theorem rowLe_of_keys_eq (ks : List (Nat × Bool)) (r1 r2 : Row)
    (h : ∀ k ∈ ks, cellAt r1 k.1 = cellAt r2 k.1) : rowLe ks r1 r2 = true := by
  unfold rowLe
  rw [rowCmp_eq_of_keys_eq ks r1 r2 h]
  rfl

theorem sortCore_success_shape (df : DataFrame) (cols : List String)
    (asc : Option (List Bool)) (ascL : List Bool)
    (hres : (match asc with
      | none => List.replicate cols.length true
      | some l => l) = ascL)
    (h1 : (missingCols df cols).isEmpty = true)
    (h2 : ascL.length = cols.length) (hlen1 : cols.length ≠ 1) :
    ∃ d m, sortCore df cols asc =
      .success d
        { df with rows := isortLe (rowLe ((cols.zip ascL).map
            (fun p => ((df.colIdx p.1).getD 0, p.2)))) df.rows }
        m := by
  cases asc with
  | none =>
    simp only at hres
    subst hres
    simp only [sortCore]
    rw [if_neg (by simp [h1]), if_neg (by simpa using h2), if_neg hlen1]
    exact ⟨_, _, rfl⟩
  | some l =>
    simp only at hres
    subst hres
    simp only [sortCore]
    rw [if_neg (by simp [h1]), if_neg (by simpa using h2), if_neg hlen1]
    exact ⟨_, _, rfl⟩

theorem sortCore_success_single_shape (df : DataFrame) (cols : List String)
    (asc : Option (List Bool)) (ascL : List Bool)
    (hres : (match asc with
      | none => List.replicate cols.length true
      | some l => l) = ascL)
    (h1 : (missingCols df cols).isEmpty = true)
    (h2 : ascL.length = cols.length) (hlen1 : cols.length = 1) :
    ∃ d m, sortCore df cols asc =
      .success d
        { df with rows := (nargsortIdx
            (colValsAt df ((df.colIdx (cols.headD "")).getD 0))
            (ascL.headD true)).map (fun k => df.rows.getD k []) }
        m := by
  cases asc with
  | none =>
    simp only at hres
    subst hres
    simp only [sortCore]
    rw [if_neg (by simp [h1]), if_neg (by simpa using h2), if_pos hlen1]
    exact ⟨_, _, rfl⟩
  | some l =>
    simp only at hres
    subst hres
    simp only [sortCore]
    rw [if_neg (by simp [h1]), if_neg (by simpa using h2), if_pos hlen1]
    exact ⟨_, _, rfl⟩

theorem sortCore_invalid_shape (df : DataFrame) (cols : List String)
    (asc : Option (List Bool)) (h1 : ¬ (missingCols df cols).isEmpty = true) :
    sortCore df cols asc =
      .earlyReturn ("Columns not found: " ++ joinSep ", " (missingCols df cols)) := by
  simp only [sortCore]
  rw [if_pos (by simpa using h1)]

theorem sortCore_mismatch_shape (df : DataFrame) (cols : List String) (l : List Bool)
    (h1 : (missingCols df cols).isEmpty = true) (h2 : l.length ≠ cols.length) :
    sortCore df cols (some l) =
      .earlyReturn "Length of ascending list must match columns list" := by
  simp only [sortCore]
  rw [if_neg (by simp [h1]), if_pos (by simpa using h2)]

/-- Counterexample to claim C6 as stated: with a single sort column,
`sort_values` delegates to `nargsort` with the default
`kind='quicksort'` — numpy's introspective sort, which pandas
documents as not stable. On a 17-row table whose sort column is
constant (every pair of rows has equal sort keys), the partition
exchanges scramble the rows, so tied rows do NOT retain their
original relative order. -/
theorem sort_single_column_ties_reordered :
    (sort_data ⟨[]⟩ ⟨["k", "id"],
      [[Value.int 0, Value.int 0],
        [Value.int 0, Value.int 1],
        [Value.int 0, Value.int 2],
        [Value.int 0, Value.int 3],
        [Value.int 0, Value.int 4],
        [Value.int 0, Value.int 5],
        [Value.int 0, Value.int 6],
        [Value.int 0, Value.int 7],
        [Value.int 0, Value.int 8],
        [Value.int 0, Value.int 9],
        [Value.int 0, Value.int 10],
        [Value.int 0, Value.int 11],
        [Value.int 0, Value.int 12],
        [Value.int 0, Value.int 13],
        [Value.int 0, Value.int 14],
        [Value.int 0, Value.int 15],
        [Value.int 0, Value.int 16]]⟩ ["k"] none).2.1.rows =
      [[Value.int 0, Value.int 0],
        [Value.int 0, Value.int 14],
        [Value.int 0, Value.int 13],
        [Value.int 0, Value.int 12],
        [Value.int 0, Value.int 11],
        [Value.int 0, Value.int 10],
        [Value.int 0, Value.int 9],
        [Value.int 0, Value.int 15],
        [Value.int 0, Value.int 8],
        [Value.int 0, Value.int 6],
        [Value.int 0, Value.int 5],
        [Value.int 0, Value.int 4],
        [Value.int 0, Value.int 3],
        [Value.int 0, Value.int 2],
        [Value.int 0, Value.int 1],
        [Value.int 0, Value.int 7],
        [Value.int 0, Value.int 16]] ∧
    (sort_data ⟨[]⟩ ⟨["k", "id"],
      [[Value.int 0, Value.int 0],
        [Value.int 0, Value.int 1],
        [Value.int 0, Value.int 2],
        [Value.int 0, Value.int 3],
        [Value.int 0, Value.int 4],
        [Value.int 0, Value.int 5],
        [Value.int 0, Value.int 6],
        [Value.int 0, Value.int 7],
        [Value.int 0, Value.int 8],
        [Value.int 0, Value.int 9],
        [Value.int 0, Value.int 10],
        [Value.int 0, Value.int 11],
        [Value.int 0, Value.int 12],
        [Value.int 0, Value.int 13],
        [Value.int 0, Value.int 14],
        [Value.int 0, Value.int 15],
        [Value.int 0, Value.int 16]]⟩ ["k"] none).2.1.rows ≠
      [[Value.int 0, Value.int 0],
        [Value.int 0, Value.int 1],
        [Value.int 0, Value.int 2],
        [Value.int 0, Value.int 3],
        [Value.int 0, Value.int 4],
        [Value.int 0, Value.int 5],
        [Value.int 0, Value.int 6],
        [Value.int 0, Value.int 7],
        [Value.int 0, Value.int 8],
        [Value.int 0, Value.int 9],
        [Value.int 0, Value.int 10],
        [Value.int 0, Value.int 11],
        [Value.int 0, Value.int 12],
        [Value.int 0, Value.int 13],
        [Value.int 0, Value.int 14],
        [Value.int 0, Value.int 15],
        [Value.int 0, Value.int 16]] := by
  refine ⟨by decide, by decide⟩

/-- Claim C6, amended: `sort_data` sorts by the given keys left to
right; with two or more sort columns (and also with an empty list)
pandas uses the stable lexsort, so rows equal on every sort-key
column retain their original relative order — stated as: the
subsequence of rows carrying any fixed key vector is unchanged (and
trivially on every failure path). With exactly one sort column the
sort is numpy quicksort and carries no such guarantee (see the
counterexample). The ascending flags default to all-ascending; a
length mismatch between the columns and flags lists (with valid
columns) is a validation failure returning the unchanged table and
ledger; a concrete two-key example witnesses the left-to-right
priority. -/
theorem sort_data_stability_amended :
    (∀ (t : Transformer) (df : DataFrame) (cols : List String)
        (asc : Option (List Bool)) (k : List Value), cols.length ≠ 1 →
      ((sort_data t df cols asc).2.1.rows.filter
          (fun r => sortKeyVec df cols r == k)) =
        df.rows.filter (fun r => sortKeyVec df cols r == k)) ∧
    (∀ (t : Transformer) (df : DataFrame) (cols : List String),
      sort_data t df cols none =
        sort_data t df cols (some (List.replicate cols.length true))) ∧
    (∀ (t : Transformer) (df : DataFrame) (cols : List String) (l : List Bool),
      missingCols df cols = [] → l.length ≠ cols.length →
      sort_data t df cols (some l) =
        (t, df, "Length of ascending list must match columns list")) ∧
    ((sort_data ⟨[]⟩ ⟨["a", "b"],
        [[.int 2, .int 1], [.int 1, .int 2], [.int 1, .int 1]]⟩
        ["a", "b"] none).2.1.rows =
      [[.int 1, .int 1], [.int 1, .int 2], [.int 2, .int 1]]) := by
  refine ⟨?_, ?_, ?_, ?_⟩
  · intro t df cols asc k hlen1
    by_cases h1 : (missingCols df cols).isEmpty = true
    · by_cases h2 : (match asc with
        | none => List.replicate cols.length true
        | some l => l).length = cols.length
      · obtain ⟨d, m, hs⟩ := sortCore_success_shape df cols asc _ rfl h1 h2 hlen1
        have hrows : (sort_data t df cols asc).2.1.rows =
            isortLe (rowLe ((cols.zip (match asc with
              | none => List.replicate cols.length true
              | some l => l)).map (fun p => ((df.colIdx p.1).getD 0, p.2)))) df.rows := by
          simp [sort_data, hs, runOp]
        rw [hrows]
        apply filter_isortLe
        intro a b ha hb
        apply rowLe_of_keys_eq
        intro kk hkk
        rw [List.mem_map] at hkk
        obtain ⟨p, hp, rfl⟩ := hkk
        have hpc : p.1 ∈ cols := (List.of_mem_zip hp).1
        have hka : sortKeyVec df cols a = k := by simpa using ha
        have hkb : sortKeyVec df cols b = k := by simpa using hb
        have : sortKeyVec df cols a = sortKeyVec df cols b := hka.trans hkb.symm
        simp only [sortKeyVec] at this
        have := List.map_eq_map_iff.mp this p.1 hpc
        simpa using this
      · cases asc with
        | none => exact absurd (by simp) h2
        | some l =>
          have hs := sortCore_mismatch_shape df cols l h1 (by simpa using h2)
          simp [sort_data, hs, runOp]
    · have hs := sortCore_invalid_shape df cols asc h1
      simp [sort_data, hs, runOp]
  · intro t df cols
    simp [sort_data, sortCore]
  · intro t df cols l hmc hlen
    have hs := sortCore_mismatch_shape df cols l (by simp [hmc]) hlen
    simp [sort_data, hs, runOp]
  · decide

/-- Claim C1: every Catalog operation contains its own failures: on
any non-success body outcome (validation return or caught exception)
the caller receives the original table unchanged, and a caught
exception yields the operation's prefixed error message; the
`convert_data_types` body always completes (its failures are
per-column and internal). All operations are total Lean functions, so
no exception ever reaches the caller. -/
theorem catalog_error_containment :
    (∀ t df cols keep, (removeDuplicatesCore df cols keep).isSuccess = false →
      (remove_duplicates t df cols keep).1 = t ∧
        (remove_duplicates t df cols keep).2.1 = df) ∧
    (∀ t df cols keep e, removeDuplicatesCore df cols keep = .exc e →
      (remove_duplicates t df cols keep).2.2 = "Error removing duplicates: " ++ e) ∧
    (∀ t df method cols fv, (handleMissingCore df method cols fv).isSuccess = false →
      (handle_missing_values t df method cols fv).1 = t ∧
        (handle_missing_values t df method cols fv).2.1 = df) ∧
    (∀ t df method cols fv e, handleMissingCore df method cols fv = .exc e →
      (handle_missing_values t df method cols fv).2.2 =
        "Error handling missing values: " ++ e) ∧
    (∀ t df c op v, (filterCore df c op v).isSuccess = false →
      (filter_data t df c op v).1 = t ∧ (filter_data t df c op v).2.1 = df) ∧
    (∀ t df c op v e, filterCore df c op v = .exc e →
      (filter_data t df c op v).2.2 = "Error filtering data: " ++ e) ∧
    (∀ t df cols asc, (sortCore df cols asc).isSuccess = false →
      (sort_data t df cols asc).1 = t ∧ (sort_data t df cols asc).2.1 = df) ∧
    (∀ t df m, (renameCore df m).isSuccess = false →
      (rename_columns t df m).1 = t ∧ (rename_columns t df m).2.1 = df) ∧
    (∀ t df cols, (dropColsCore df cols).isSuccess = false →
      (drop_columns t df cols).1 = t ∧ (drop_columns t df cols).2.1 = df) ∧
    (∀ df m, (convertCore df m).isSuccess = true) ∧
    (∀ t df nc e, (calcColumnCore df nc e).isSuccess = false →
      (create_calculated_column t df nc e).1 = t ∧
        (create_calculated_column t df nc e).2.1 = df) ∧
    (∀ t df nc ex e, calcColumnCore df nc ex = .exc e →
      (create_calculated_column t df nc ex).2.2 =
        "Error creating calculated column: " ++ e) ∧
    (∀ t df c op ov nv pat, (textOpsCore df c op ov nv pat).isSuccess = false →
      (text_operations t df c op ov nv pat).1 = t ∧
        (text_operations t df c op ov nv pat).2.1 = df) ∧
    (∀ t df c op ov nv pat e, textOpsCore df c op ov nv pat = .exc e →
      (text_operations t df c op ov nv pat).2.2 = "Error in text operation: " ++ e) ∧
    (∀ t df m, (fixColumnTyposCore df m).isSuccess = false →
      (fix_column_typos t df m).1 = t ∧ (fix_column_typos t df m).2.1 = df) ∧
    (∀ t df c m, (fixDataTyposCore df c m).isSuccess = false →
      (fix_data_typos t df c m).1 = t ∧ (fix_data_typos t df c m).2.1 = df) := by
  refine ⟨?_, ?_, ?_, ?_, ?_, ?_, ?_, ?_, ?_, ?_, ?_, ?_, ?_, ?_, ?_, ?_⟩
  · exact fun t df cols keep h => runOp_not_success _ _ _ _ _ h
  · intro t df cols keep e he
    simp only [remove_duplicates, he, runOp]
  · exact fun t df method cols fv h => runOp_not_success _ _ _ _ _ h
  · intro t df method cols fv e he
    simp only [handle_missing_values, he, runOp]
  · exact fun t df c op v h => runOp_not_success _ _ _ _ _ h
  · intro t df c op v e he
    simp only [filter_data, he, runOp]
  · exact fun t df cols asc h => runOp_not_success _ _ _ _ _ h
  · exact fun t df m h => runOp_not_success _ _ _ _ _ h
  · exact fun t df cols h => runOp_not_success _ _ _ _ _ h
  · exact fun df m => rfl
  · exact fun t df nc e h => runOp_not_success _ _ _ _ _ h
  · intro t df nc ex e he
    simp only [create_calculated_column, he, runOp]
  · exact fun t df c op ov nv pat h => runOp_not_success _ _ _ _ _ h
  · intro t df c op ov nv pat e he
    simp only [text_operations, he, runOp]
  · exact fun t df m h => runOp_not_success _ _ _ _ _ h
  · exact fun t df c m h => runOp_not_success _ _ _ _ _ h

/-- Concrete instantiations of claim C1: a failing dedup (missing key
column), a failing filter (ordered comparison of text against a
number), and a failing calculated column (unknown name), each leaving
the table unchanged and producing the prefixed error message. -/
theorem catalog_error_containment_witness :
    (remove_duplicates ⟨[]⟩ ⟨["a"], [[Value.int 1]]⟩ (some ["zzz"]) .first).2.1 =
      ⟨["a"], [[Value.int 1]]⟩ ∧
    (filter_data ⟨[]⟩ ⟨["a"], [[Value.str "x"]]⟩ "a" ">" (Value.int 0)).1 = ⟨[]⟩ ∧
    (create_calculated_column ⟨[]⟩ ⟨["a"], [[Value.int 1]]⟩ "d" (.colRef "q")).2.2 =
      "Error creating calculated column: " ++ "name 'q' is not defined" := by
  refine ⟨?_, ?_, ?_⟩
  · exact (catalog_error_containment.1 ⟨[]⟩ ⟨["a"], [[Value.int 1]]⟩ (some ["zzz"]) .first
      (by decide)).2
  · exact (catalog_error_containment.2.2.2.2.1 ⟨[]⟩ ⟨["a"], [[Value.str "x"]]⟩ "a" ">"
      (Value.int 0) (by decide)).1
  · exact catalog_error_containment.2.2.2.2.2.2.2.2.2.2.2.1 ⟨[]⟩ ⟨["a"], [[Value.int 1]]⟩
      "d" (.colRef "q") "name 'q' is not defined" (by decide)

/-- Claim C3: for every successful Catalog operation invocation the
appended HistoryRecord carries `rows_before`/`cols_before` equal to
the input dimensions, `rows_after`/`cols_after` equal to the returned
table's dimensions, and the delta fields equal to the differences. -/
theorem history_record_dimension_accounting :
    (∀ t df cols keep, (removeDuplicatesCore df cols keep).isSuccess = true →
      ∃ rec : HistoryRecord,
        (remove_duplicates t df cols keep).1.history = t.history ++ [rec] ∧
        rec.rows_before = df.nrows ∧ rec.cols_before = df.ncols ∧
        rec.rows_after = (remove_duplicates t df cols keep).2.1.nrows ∧
        rec.cols_after = (remove_duplicates t df cols keep).2.1.ncols ∧
        rec.rows_changed = (rec.rows_after : Int) - (rec.rows_before : Int) ∧
        rec.cols_changed = (rec.cols_after : Int) - (rec.cols_before : Int)) ∧
    (∀ t df method cols fv, (handleMissingCore df method cols fv).isSuccess = true →
      ∃ rec : HistoryRecord,
        (handle_missing_values t df method cols fv).1.history = t.history ++ [rec] ∧
        rec.rows_before = df.nrows ∧ rec.cols_before = df.ncols ∧
        rec.rows_after = (handle_missing_values t df method cols fv).2.1.nrows ∧
        rec.cols_after = (handle_missing_values t df method cols fv).2.1.ncols ∧
        rec.rows_changed = (rec.rows_after : Int) - (rec.rows_before : Int) ∧
        rec.cols_changed = (rec.cols_after : Int) - (rec.cols_before : Int)) ∧
    (∀ t df c op v, (filterCore df c op v).isSuccess = true →
      ∃ rec : HistoryRecord,
        (filter_data t df c op v).1.history = t.history ++ [rec] ∧
        rec.rows_before = df.nrows ∧ rec.cols_before = df.ncols ∧
        rec.rows_after = (filter_data t df c op v).2.1.nrows ∧
        rec.cols_after = (filter_data t df c op v).2.1.ncols ∧
        rec.rows_changed = (rec.rows_after : Int) - (rec.rows_before : Int) ∧
        rec.cols_changed = (rec.cols_after : Int) - (rec.cols_before : Int)) ∧
    (∀ t df cols asc, (sortCore df cols asc).isSuccess = true →
      ∃ rec : HistoryRecord,
        (sort_data t df cols asc).1.history = t.history ++ [rec] ∧
        rec.rows_before = df.nrows ∧ rec.cols_before = df.ncols ∧
        rec.rows_after = (sort_data t df cols asc).2.1.nrows ∧
        rec.cols_after = (sort_data t df cols asc).2.1.ncols ∧
        rec.rows_changed = (rec.rows_after : Int) - (rec.rows_before : Int) ∧
        rec.cols_changed = (rec.cols_after : Int) - (rec.cols_before : Int)) ∧
    (∀ t df m, (renameCore df m).isSuccess = true →
      ∃ rec : HistoryRecord,
        (rename_columns t df m).1.history = t.history ++ [rec] ∧
        rec.rows_before = df.nrows ∧ rec.cols_before = df.ncols ∧
        rec.rows_after = (rename_columns t df m).2.1.nrows ∧
        rec.cols_after = (rename_columns t df m).2.1.ncols ∧
        rec.rows_changed = (rec.rows_after : Int) - (rec.rows_before : Int) ∧
        rec.cols_changed = (rec.cols_after : Int) - (rec.cols_before : Int)) ∧
    (∀ t df cols, (dropColsCore df cols).isSuccess = true →
      ∃ rec : HistoryRecord,
        (drop_columns t df cols).1.history = t.history ++ [rec] ∧
        rec.rows_before = df.nrows ∧ rec.cols_before = df.ncols ∧
        rec.rows_after = (drop_columns t df cols).2.1.nrows ∧
        rec.cols_after = (drop_columns t df cols).2.1.ncols ∧
        rec.rows_changed = (rec.rows_after : Int) - (rec.rows_before : Int) ∧
        rec.cols_changed = (rec.cols_after : Int) - (rec.cols_before : Int)) ∧
    (∀ t df m, (convertCore df m).isSuccess = true →
      ∃ rec : HistoryRecord,
        (convert_data_types t df m).1.history = t.history ++ [rec] ∧
        rec.rows_before = df.nrows ∧ rec.cols_before = df.ncols ∧
        rec.rows_after = (convert_data_types t df m).2.1.nrows ∧
        rec.cols_after = (convert_data_types t df m).2.1.ncols ∧
        rec.rows_changed = (rec.rows_after : Int) - (rec.rows_before : Int) ∧
        rec.cols_changed = (rec.cols_after : Int) - (rec.cols_before : Int)) ∧
    (∀ t df nc ex, (calcColumnCore df nc ex).isSuccess = true →
      ∃ rec : HistoryRecord,
        (create_calculated_column t df nc ex).1.history = t.history ++ [rec] ∧
        rec.rows_before = df.nrows ∧ rec.cols_before = df.ncols ∧
        rec.rows_after = (create_calculated_column t df nc ex).2.1.nrows ∧
        rec.cols_after = (create_calculated_column t df nc ex).2.1.ncols ∧
        rec.rows_changed = (rec.rows_after : Int) - (rec.rows_before : Int) ∧
        rec.cols_changed = (rec.cols_after : Int) - (rec.cols_before : Int)) ∧
    (∀ t df c op ov nv pat, (textOpsCore df c op ov nv pat).isSuccess = true →
      ∃ rec : HistoryRecord,
        (text_operations t df c op ov nv pat).1.history = t.history ++ [rec] ∧
        rec.rows_before = df.nrows ∧ rec.cols_before = df.ncols ∧
        rec.rows_after = (text_operations t df c op ov nv pat).2.1.nrows ∧
        rec.cols_after = (text_operations t df c op ov nv pat).2.1.ncols ∧
        rec.rows_changed = (rec.rows_after : Int) - (rec.rows_before : Int) ∧
        rec.cols_changed = (rec.cols_after : Int) - (rec.cols_before : Int)) ∧
    (∀ t df m, (fixColumnTyposCore df m).isSuccess = true →
      ∃ rec : HistoryRecord,
        (fix_column_typos t df m).1.history = t.history ++ [rec] ∧
        rec.rows_before = df.nrows ∧ rec.cols_before = df.ncols ∧
        rec.rows_after = (fix_column_typos t df m).2.1.nrows ∧
        rec.cols_after = (fix_column_typos t df m).2.1.ncols ∧
        rec.rows_changed = (rec.rows_after : Int) - (rec.rows_before : Int) ∧
        rec.cols_changed = (rec.cols_after : Int) - (rec.cols_before : Int)) ∧
    (∀ t df c m, (fixDataTyposCore df c m).isSuccess = true →
      ∃ rec : HistoryRecord,
        (fix_data_typos t df c m).1.history = t.history ++ [rec] ∧
        rec.rows_before = df.nrows ∧ rec.cols_before = df.ncols ∧
        rec.rows_after = (fix_data_typos t df c m).2.1.nrows ∧
        rec.cols_after = (fix_data_typos t df c m).2.1.ncols ∧
        rec.rows_changed = (rec.rows_after : Int) - (rec.rows_before : Int) ∧
        rec.cols_changed = (rec.cols_after : Int) - (rec.cols_before : Int)) := by
  exact ⟨fun t df cols keep h => runOp_success_record _ _ _ _ _ h,
    fun t df method cols fv h => runOp_success_record _ _ _ _ _ h,
    fun t df c op v h => runOp_success_record _ _ _ _ _ h,
    fun t df cols asc h => runOp_success_record _ _ _ _ _ h,
    fun t df m h => runOp_success_record _ _ _ _ _ h,
    fun t df cols h => runOp_success_record _ _ _ _ _ h,
    fun t df m h => runOp_success_record _ _ _ _ _ h,
    fun t df nc ex h => runOp_success_record _ _ _ _ _ h,
    fun t df c op ov nv pat h => runOp_success_record _ _ _ _ _ h,
    fun t df m h => runOp_success_record _ _ _ _ _ h,
    fun t df c m h => runOp_success_record _ _ _ _ _ h⟩

/-- Concrete instantiation of claim C3: a successful dedup on a
three-row table appends a record whose dimensions match the returned
two-row table. -/
theorem history_record_dimension_accounting_witness :
    (removeDuplicatesCore ⟨["a"], [[Value.int 1], [Value.int 1], [Value.int 2]]⟩
      none .first).isSuccess = true ∧
    ∃ rec : HistoryRecord,
      (remove_duplicates ⟨[]⟩ ⟨["a"], [[Value.int 1], [Value.int 1], [Value.int 2]]⟩
        none .first).1.history = ([] : List HistoryRecord) ++ [rec] ∧
      rec.rows_before = (⟨["a"], [[Value.int 1], [Value.int 1], [Value.int 2]]⟩ :
        DataFrame).nrows ∧
      rec.cols_before = (⟨["a"], [[Value.int 1], [Value.int 1], [Value.int 2]]⟩ :
        DataFrame).ncols ∧
      rec.rows_after = (remove_duplicates ⟨[]⟩
        ⟨["a"], [[Value.int 1], [Value.int 1], [Value.int 2]]⟩ none .first).2.1.nrows ∧
      rec.cols_after = (remove_duplicates ⟨[]⟩
        ⟨["a"], [[Value.int 1], [Value.int 1], [Value.int 2]]⟩ none .first).2.1.ncols ∧
      rec.rows_changed = (rec.rows_after : Int) - (rec.rows_before : Int) ∧
      rec.cols_changed = (rec.cols_after : Int) - (rec.cols_before : Int) :=
  ⟨by decide, history_record_dimension_accounting.1 ⟨[]⟩
    ⟨["a"], [[Value.int 1], [Value.int 1], [Value.int 2]]⟩ none .first (by decide)⟩

/-- Counterexample to claim C4 as stated: `convert_data_types` invoked
with a single mapping whose column is missing — a validation failure
by the claim's own taxonomy — still appends a HistoryRecord to the
ledger, while returning the unchanged table and an error-carrying
message. -/
theorem ledger_append_on_failed_convert :
    (convert_data_types ⟨[]⟩ ⟨["a"], [[Value.int 1]]⟩ [("zzz", "int")]).1.history.length = 1 ∧
    (convert_data_types ⟨[]⟩ ⟨["a"], [[Value.int 1]]⟩ [("zzz", "int")]).2.2 =
      "Successfully converted 0 columns. Errors: Column 'zzz' not found" ∧
    (convert_data_types ⟨[]⟩ ⟨["a"], [[Value.int 1]]⟩ [("zzz", "int")]).2.1 =
      ⟨["a"], [[Value.int 1]]⟩ := by
  refine ⟨rfl, ?_, rfl⟩
  decide

/-- Claim C4, amended: every Catalog operation other than
`convert_data_types` leaves the ledger unchanged on any failing
invocation (validation failure or caught exception); the exception is
`convert_data_types`, whose body always completes and appends exactly
one record — even when every requested conversion fails, missing
columns included. -/
theorem ledger_unchanged_on_failure_amended :
    (∀ t df cols keep, (removeDuplicatesCore df cols keep).isSuccess = false →
      (remove_duplicates t df cols keep).1.history = t.history) ∧
    (∀ t df method cols fv, (handleMissingCore df method cols fv).isSuccess = false →
      (handle_missing_values t df method cols fv).1.history = t.history) ∧
    (∀ t df c op v, (filterCore df c op v).isSuccess = false →
      (filter_data t df c op v).1.history = t.history) ∧
    (∀ t df cols asc, (sortCore df cols asc).isSuccess = false →
      (sort_data t df cols asc).1.history = t.history) ∧
    (∀ t df m, (renameCore df m).isSuccess = false →
      (rename_columns t df m).1.history = t.history) ∧
    (∀ t df cols, (dropColsCore df cols).isSuccess = false →
      (drop_columns t df cols).1.history = t.history) ∧
    (∀ t df nc ex, (calcColumnCore df nc ex).isSuccess = false →
      (create_calculated_column t df nc ex).1.history = t.history) ∧
    (∀ t df c op ov nv pat, (textOpsCore df c op ov nv pat).isSuccess = false →
      (text_operations t df c op ov nv pat).1.history = t.history) ∧
    (∀ t df m, (fixColumnTyposCore df m).isSuccess = false →
      (fix_column_typos t df m).1.history = t.history) ∧
    (∀ t df c m, (fixDataTyposCore df c m).isSuccess = false →
      (fix_data_typos t df c m).1.history = t.history) ∧
    (∀ t df m, ∃ rec : HistoryRecord,
      (convert_data_types t df m).1.history = t.history ++ [rec]) := by
  refine ⟨?_, ?_, ?_, ?_, ?_, ?_, ?_, ?_, ?_, ?_, ?_⟩
  · exact fun t df cols keep h =>
      congrArg Transformer.history (runOp_not_success _ _ _ _ _ h).1
  · exact fun t df method cols fv h =>
      congrArg Transformer.history (runOp_not_success _ _ _ _ _ h).1
  · exact fun t df c op v h =>
      congrArg Transformer.history (runOp_not_success _ _ _ _ _ h).1
  · exact fun t df cols asc h =>
      congrArg Transformer.history (runOp_not_success _ _ _ _ _ h).1
  · exact fun t df m h =>
      congrArg Transformer.history (runOp_not_success _ _ _ _ _ h).1
  · exact fun t df cols h =>
      congrArg Transformer.history (runOp_not_success _ _ _ _ _ h).1
  · exact fun t df nc ex h =>
      congrArg Transformer.history (runOp_not_success _ _ _ _ _ h).1
  · exact fun t df c op ov nv pat h =>
      congrArg Transformer.history (runOp_not_success _ _ _ _ _ h).1
  · exact fun t df m h =>
      congrArg Transformer.history (runOp_not_success _ _ _ _ _ h).1
  · exact fun t df c m h =>
      congrArg Transformer.history (runOp_not_success _ _ _ _ _ h).1
  · intro t df m
    obtain ⟨rec, hr, _⟩ := runOp_success_record "CONVERT_TYPES"
      "Error converting data types: " t df (convertCore df m) rfl
    exact ⟨rec, hr⟩

/-- Concrete instantiations of amended claim C4: a failing sort
(missing column) and a failing text operation (unknown operation)
leave the ledger unchanged. -/
theorem ledger_unchanged_on_failure_amended_witness :
    (sort_data ⟨[]⟩ ⟨["a"], [[Value.int 1]]⟩ ["zzz"] none).1.history =
      ([] : List HistoryRecord) ∧
    (text_operations ⟨[]⟩ ⟨["a"], [[Value.int 1]]⟩ "a" "frobnicate").1.history =
      ([] : List HistoryRecord) :=
  ⟨ledger_unchanged_on_failure_amended.2.2.2.1 ⟨[]⟩ ⟨["a"], [[Value.int 1]]⟩
      ["zzz"] none (by decide),
    ledger_unchanged_on_failure_amended.2.2.2.2.2.2.2.1 ⟨[]⟩ ⟨["a"], [[Value.int 1]]⟩
      "a" "frobnicate" "" "" "" (by decide)⟩

theorem strContains_joinSep_self (sep : String) (l : List String) (c : String)
    (hc : c ∈ l) : strContains (joinSep sep l) c = true :=
  strContains_joinSep sep l c c hc (strContains_refl c)

theorem strContains_pyListRepr (l : List String) (c : String) (hc : c ∈ l) :
    strContains (pyListRepr l) c = true := by
  unfold pyListRepr
  exact strContains_append_suf _ _ _ (strContains_append_pre _ _ _
    (strContains_joinSep _ _ c (sqName c) (List.mem_map_of_mem _ hc)
      (strContains_sqName c)))

theorem strContains_pandasIndexRepr (l : List String) (c : String) (hc : c ∈ l) :
    strContains (pandasIndexRepr l) c = true := by
  unfold pandasIndexRepr
  exact strContains_append_suf _ _ _ (strContains_append_pre _ _ _
    (strContains_pyListRepr l c hc))

theorem strContains_keyErrNotInIndex (l : List String) (c : String) (hc : c ∈ l) :
    strContains (keyErrNotInIndex l) c = true := by
  unfold keyErrNotInIndex
  exact strContains_append_suf _ _ _ (strContains_append_pre _ _ _
    (strContains_pyListRepr l c hc))

theorem renameCore_invalid (df : DataFrame) (m : List (String × String))
    (h : ¬ (missingCols df (m.map Prod.fst)).isEmpty = true) :
    renameCore df m = .earlyReturn
      ("Columns not found: " ++ joinSep ", " (missingCols df (m.map Prod.fst))) := by
  simp only [renameCore]
  rw [if_pos (by simpa using h)]

theorem dropColsCore_invalid (df : DataFrame) (cols : List String)
    (h : ¬ (missingCols df cols).isEmpty = true) :
    dropColsCore df cols = .earlyReturn
      ("Columns not found: " ++ joinSep ", " (missingCols df cols)) := by
  simp only [dropColsCore]
  rw [if_pos (by simpa using h)]

theorem fixColumnTyposCore_invalid (df : DataFrame) (m : List (String × String))
    (h : ¬ (missingCols df (m.map Prod.fst)).isEmpty = true) :
    fixColumnTyposCore df m = .earlyReturn
      ("Error: Columns not found: " ++ joinSep ", " (missingCols df (m.map Prod.fst))) := by
  simp only [fixColumnTyposCore]
  rw [if_pos (by simpa using h)]

theorem removeDuplicatesCore_missing (df : DataFrame) (cs : List String) (keep : Keep)
    (hne : ¬ cs.isEmpty = true)
    (hm : ¬ (isortLe strLeB
      (dedupKeepFirst (missingCols df cs))).isEmpty = true) :
    removeDuplicatesCore df (some cs) keep =
      .exc (pandasIndexRepr (isortLe strLeB
        (dedupKeepFirst (missingCols df cs)))) := by
  simp only [removeDuplicatesCore, Option.getD_some]
  rw [if_pos (by simpa using hne), if_pos (by simpa using hm)]

theorem handleMissingCore_missing (df : DataFrame) (method : String) (cs : List String)
    (fv : Option Value) (hne : cs.isEmpty = false)
    (hm : ¬ (dedupKeepFirst (missingCols df cs)).isEmpty = true) :
    handleMissingCore df method (some cs) fv =
      .exc (keyErrNotInIndex (dedupKeepFirst (missingCols df cs))) := by
  have hm2 : (dedupKeepFirst (missingCols df cs)).isEmpty = false :=
    Bool.not_eq_true _ ▸ (Bool.eq_false_iff.mpr (fun hx => hm hx))
  simp [handleMissingCore, hne, hm2]

/-- Claim C2: every Catalog operation referencing named columns
validates them before mutating anything: on any missing referenced
column the input table and ledger are returned unchanged and the
message mentions every missing column name. For `sort_data`,
`rename_columns`, `drop_columns` and `fix_column_typos` the names are
enumerated by the source's own list comprehension; for
`remove_duplicates` (with a nonempty key-column list) and
`handle_missing_values` (with a nonempty explicit column list) the
enumeration comes from the pandas `KeyError` payload, which lists
every missing name. -/
theorem validation_enumerates_missing_columns :
    (∀ t df cols asc, missingCols df cols ≠ [] →
      (sort_data t df cols asc).1 = t ∧ (sort_data t df cols asc).2.1 = df ∧
      ∀ c ∈ missingCols df cols, strContains (sort_data t df cols asc).2.2 c = true) ∧
    (∀ t df m, missingCols df (m.map Prod.fst) ≠ [] →
      (rename_columns t df m).1 = t ∧ (rename_columns t df m).2.1 = df ∧
      ∀ c ∈ missingCols df (m.map Prod.fst),
        strContains (rename_columns t df m).2.2 c = true) ∧
    (∀ t df cols, missingCols df cols ≠ [] →
      (drop_columns t df cols).1 = t ∧ (drop_columns t df cols).2.1 = df ∧
      ∀ c ∈ missingCols df cols, strContains (drop_columns t df cols).2.2 c = true) ∧
    (∀ t df m, missingCols df (m.map Prod.fst) ≠ [] →
      (fix_column_typos t df m).1 = t ∧ (fix_column_typos t df m).2.1 = df ∧
      ∀ c ∈ missingCols df (m.map Prod.fst),
        strContains (fix_column_typos t df m).2.2 c = true) ∧
    (∀ t df cs keep, cs ≠ [] → missingCols df cs ≠ [] →
      (remove_duplicates t df (some cs) keep).1 = t ∧
      (remove_duplicates t df (some cs) keep).2.1 = df ∧
      ∀ c ∈ missingCols df cs,
        strContains (remove_duplicates t df (some cs) keep).2.2 c = true) ∧
    (∀ t df method cs fv, cs ≠ [] → missingCols df cs ≠ [] →
      (handle_missing_values t df method (some cs) fv).1 = t ∧
      (handle_missing_values t df method (some cs) fv).2.1 = df ∧
      ∀ c ∈ missingCols df cs,
        strContains (handle_missing_values t df method (some cs) fv).2.2 c = true) := by
  refine ⟨?_, ?_, ?_, ?_, ?_, ?_⟩
  · intro t df cols asc h
    have hs := sortCore_invalid_shape df cols asc (by simpa [List.isEmpty_iff] using h)
    refine ⟨by simp [sort_data, hs, runOp], by simp [sort_data, hs, runOp], ?_⟩
    intro c hc
    have hmsg : (sort_data t df cols asc).2.2 =
        "Columns not found: " ++ joinSep ", " (missingCols df cols) := by
      simp [sort_data, hs, runOp]
    rw [hmsg]
    exact strContains_append_pre _ _ _ (strContains_joinSep_self _ _ _ hc)
  · intro t df m h
    have hs := renameCore_invalid df m (by simpa [List.isEmpty_iff] using h)
    refine ⟨by simp [rename_columns, hs, runOp], by simp [rename_columns, hs, runOp], ?_⟩
    intro c hc
    have hmsg : (rename_columns t df m).2.2 =
        "Columns not found: " ++ joinSep ", " (missingCols df (m.map Prod.fst)) := by
      simp [rename_columns, hs, runOp]
    rw [hmsg]
    exact strContains_append_pre _ _ _ (strContains_joinSep_self _ _ _ hc)
  · intro t df cols h
    have hs := dropColsCore_invalid df cols (by simpa [List.isEmpty_iff] using h)
    refine ⟨by simp [drop_columns, hs, runOp], by simp [drop_columns, hs, runOp], ?_⟩
    intro c hc
    have hmsg : (drop_columns t df cols).2.2 =
        "Columns not found: " ++ joinSep ", " (missingCols df cols) := by
      simp [drop_columns, hs, runOp]
    rw [hmsg]
    exact strContains_append_pre _ _ _ (strContains_joinSep_self _ _ _ hc)
  · intro t df m h
    have hs := fixColumnTyposCore_invalid df m (by simpa [List.isEmpty_iff] using h)
    refine ⟨by simp [fix_column_typos, hs, runOp], by simp [fix_column_typos, hs, runOp], ?_⟩
    intro c hc
    have hmsg : (fix_column_typos t df m).2.2 =
        "Error: Columns not found: " ++ joinSep ", " (missingCols df (m.map Prod.fst)) := by
      simp [fix_column_typos, hs, runOp]
    rw [hmsg]
    exact strContains_append_pre _ _ _ (strContains_joinSep_self _ _ _ hc)
  · intro t df cs keep hne h
    have hmemdiff : ∀ c ∈ missingCols df cs,
        c ∈ isortLe strLeB (dedupKeepFirst (missingCols df cs)) := by
      intro c hc
      rw [mem_isortLe, mem_dedupKeepFirst]
      exact hc
    obtain ⟨c0, hc0⟩ := List.exists_mem_of_ne_nil _ h
    have hdne : ¬ (isortLe strLeB
        (dedupKeepFirst (missingCols df cs))).isEmpty = true := by
      rw [List.isEmpty_iff]
      exact List.ne_nil_of_mem (hmemdiff c0 hc0)
    have hs := removeDuplicatesCore_missing df cs keep
      (by simpa [List.isEmpty_iff] using hne) hdne
    refine ⟨by simp [remove_duplicates, hs, runOp],
      by simp [remove_duplicates, hs, runOp], ?_⟩
    intro c hc
    have hmsg : (remove_duplicates t df (some cs) keep).2.2 =
        "Error removing duplicates: " ++ pandasIndexRepr (isortLe strLeB
          (dedupKeepFirst (missingCols df cs))) := by
      simp [remove_duplicates, hs, runOp]
    rw [hmsg]
    exact strContains_append_pre _ _ _ (strContains_pandasIndexRepr _ _ (hmemdiff c hc))
  · intro t df method cs fv hne h
    have hmemd : ∀ c ∈ missingCols df cs, c ∈ dedupKeepFirst (missingCols df cs) := by
      intro c hc
      rw [mem_dedupKeepFirst]
      exact hc
    obtain ⟨c0, hc0⟩ := List.exists_mem_of_ne_nil _ h
    have hdne : ¬ (dedupKeepFirst (missingCols df cs)).isEmpty = true := by
      rw [List.isEmpty_iff]
      exact List.ne_nil_of_mem (hmemd c0 hc0)
    have hs := handleMissingCore_missing df method cs fv
      (by simpa [List.isEmpty_iff] using hne) hdne
    refine ⟨by simp [handle_missing_values, hs, runOp],
      by simp [handle_missing_values, hs, runOp], ?_⟩
    intro c hc
    have hmsg : (handle_missing_values t df method (some cs) fv).2.2 =
        "Error handling missing values: " ++
          keyErrNotInIndex (dedupKeepFirst (missingCols df cs)) := by
      simp [handle_missing_values, hs, runOp]
    rw [hmsg]
    exact strContains_append_pre _ _ _ (strContains_keyErrNotInIndex _ _ (hmemd c hc))

/-- Concrete instantiation of claim C2: dropping two absent columns
returns the unchanged table and a message naming both. -/
theorem validation_enumerates_missing_columns_witness :
    missingCols ⟨["a"], [[Value.int 1]]⟩ ["x", "y"] ≠ [] ∧
    (drop_columns ⟨[]⟩ ⟨["a"], [[Value.int 1]]⟩ ["x", "y"]).2.1 = ⟨["a"], [[Value.int 1]]⟩ ∧
    ∀ c ∈ missingCols ⟨["a"], [[Value.int 1]]⟩ ["x", "y"],
      strContains (drop_columns ⟨[]⟩ ⟨["a"], [[Value.int 1]]⟩ ["x", "y"]).2.2 c = true :=
  ⟨by decide,
    (validation_enumerates_missing_columns.2.2.1 ⟨[]⟩ ⟨["a"], [[Value.int 1]]⟩
      ["x", "y"] (by decide)).2.1,
    (validation_enumerates_missing_columns.2.2.1 ⟨[]⟩ ⟨["a"], [[Value.int 1]]⟩
      ["x", "y"] (by decide)).2.2⟩

/-- Concrete instantiations of amended claim C6: stability of a
two-key sort on the concrete example, and the flag-length mismatch
rejection. -/
theorem sort_data_stability_amended_witness :
    ((sort_data ⟨[]⟩ ⟨["a", "b"],
        [[.int 2, .int 1], [.int 1, .int 2], [.int 1, .int 1]]⟩
        ["a", "b"] none).2.1.rows.filter
          (fun r => sortKeyVec ⟨["a", "b"],
            [[.int 2, .int 1], [.int 1, .int 2], [.int 1, .int 1]]⟩ ["a", "b"] r ==
              [Value.int 1, Value.int 1]) =
      ([[.int 2, .int 1], [.int 1, .int 2], [.int 1, .int 1]] : List Row).filter
          (fun r => sortKeyVec ⟨["a", "b"],
            [[.int 2, .int 1], [.int 1, .int 2], [.int 1, .int 1]]⟩ ["a", "b"] r ==
              [Value.int 1, Value.int 1])) ∧
    sort_data ⟨[]⟩ ⟨["a"], [[Value.int 1]]⟩ ["a"] (some [true, false]) =
      (⟨[]⟩, ⟨["a"], [[Value.int 1]]⟩,
        "Length of ascending list must match columns list") :=
  ⟨sort_data_stability_amended.1 ⟨[]⟩
      ⟨["a", "b"], [[.int 2, .int 1], [.int 1, .int 2], [.int 1, .int 1]]⟩
      ["a", "b"] none [Value.int 1, Value.int 1] (by decide),
    sort_data_stability_amended.2.2.1 ⟨[]⟩ ⟨["a"], [[Value.int 1]]⟩ ["a"] [true, false]
      (by decide) (by decide)⟩

/-- Counterexample to claim C7 as stated: a row whose filter-column
value is missing IS included by a `contains` filter, because
`astype(str)` renders the missing value as the text "nan" before the
match and the `na=False` guard never applies. -/
theorem filter_string_null_row_included :
    (filter_data ⟨[]⟩ ⟨["c"], [[Value.null]]⟩ "c" "contains" (Value.str "nan")).2.1.rows =
      [[Value.null]] ∧
    (filter_data ⟨[]⟩ ⟨["c"], [[Value.null]]⟩ "c" "contains" (Value.str "nan")).2.2 =
      "Filtered to 1 rows where Column 'c' contains 'nan'" := by
  refine ⟨rfl, ?_⟩
  decide

/-- Claim C7, amended: the string operators of `filter_data` coerce
the column to text first, so a missing cell is matched as the text
"nan": the kept rows are exactly those whose textual rendering passes
the substring, prefix, or suffix test, and a null-valued row is
included precisely when "nan" passes that test. -/
theorem filter_string_coerces_null_to_text_amended :
    (∀ (t : Transformer) (df : DataFrame) (c : String) (i : Nat) (v : Value),
      df.colIdx c = some i →
      (filter_data t df c "contains" v).2.1.rows =
        df.rows.filter (fun r => strContains (pyStr (cellAt r i)) (pyStr v))) ∧
    (∀ (t : Transformer) (df : DataFrame) (c : String) (i : Nat) (v : Value),
      df.colIdx c = some i →
      (filter_data t df c "startswith" v).2.1.rows =
        df.rows.filter (fun r => strStarts (pyStr (cellAt r i)) (pyStr v))) ∧
    (∀ (t : Transformer) (df : DataFrame) (c : String) (i : Nat) (v : Value),
      df.colIdx c = some i →
      (filter_data t df c "endswith" v).2.1.rows =
        df.rows.filter (fun r => strEnds (pyStr (cellAt r i)) (pyStr v))) ∧
    pyStr .null = "nan" := by
  refine ⟨?_, ?_, ?_, rfl⟩
  · intro t df c i v hidx
    simp [filter_data, filterCore, hidx, runOp]
  · intro t df c i v hidx
    simp [filter_data, filterCore, hidx, runOp]
  · intro t df c i v hidx
    simp [filter_data, filterCore, hidx, runOp]

/-- Concrete instantiation of amended claim C7: with a column holding
one missing and one matching text cell, `startswith "x"` keeps only
the text row, and the null row is dropped exactly because "nan" does
not start with "x". -/
theorem filter_string_coerces_null_to_text_amended_witness :
    (⟨["c"], [[Value.null], [Value.str "xy"]]⟩ : DataFrame).colIdx "c" = some 0 ∧
    (filter_data ⟨[]⟩ ⟨["c"], [[Value.null], [Value.str "xy"]]⟩ "c" "startswith"
        (Value.str "x")).2.1.rows =
      ([[Value.null], [Value.str "xy"]] : List Row).filter
        (fun r => strStarts (pyStr (cellAt r 0)) (pyStr (Value.str "x"))) :=
  ⟨by decide,
    filter_string_coerces_null_to_text_amended.2.1 ⟨[]⟩
      ⟨["c"], [[Value.null], [Value.str "xy"]]⟩ "c" 0 (Value.str "x") (by decide)⟩

/-- Counterexample to claim C8 as stated: an unknown missing-value
method does not silently no-op — the branchless path leaves the local
variable `details` unbound, the logging call raises
`UnboundLocalError`, and the operation returns the unchanged table
together with an error message (so an error IS signalled). -/
theorem unknown_method_signals_error :
    handle_missing_values ⟨[]⟩ ⟨["a"], [[Value.int 1]]⟩ "bogus" none none =
      (⟨[]⟩, ⟨["a"], [[Value.int 1]]⟩,
        "Error handling missing values: " ++
          "cannot access local variable 'details' where it is not associated with a value") := by
  decide

/-- Claim C8, amended: for every method string outside the seven known
methods (and target columns all present, so the earlier `KeyError`
path is not taken), `handle_missing_values` returns the unchanged
table and ledger with the caught-`UnboundLocalError` message, rather
than silently succeeding. -/
theorem unknown_method_unbound_local_amended (t : Transformer) (df : DataFrame)
    (method : String) (fv : Option Value)
    (hm : ¬ method ∈ knownMissingMethods) :
    handle_missing_values t df method none fv =
      (t, df, "Error handling missing values: " ++
        "cannot access local variable 'details' where it is not associated with a value") := by
  have hcore : handleMissingCore df method none fv =
      .exc "cannot access local variable 'details' where it is not associated with a value" := by
    have hmiss : missingCols df df.cols = [] := by
      simp [missingCols, List.filter_eq_nil_iff]
    simp only [knownMissingMethods, List.mem_cons, List.mem_singleton] at hm
    push_neg at hm
    obtain ⟨h1, h2, h3, h4, h5, h6, h7⟩ := hm
    simp [handleMissingCore, hmiss, dedupKeepFirst, h1, h2, h3, h4, h5, h6, h7]
  simp [handle_missing_values, hcore, runOp]

/-- Concrete instantiation of amended claim C8 at method "bogus". -/
theorem unknown_method_unbound_local_amended_witness :
    ¬ ("bogus" ∈ knownMissingMethods) ∧
    handle_missing_values ⟨[]⟩ ⟨["a", "b"], [[Value.null, Value.int 2]]⟩ "bogus" none none =
      (⟨[]⟩, ⟨["a", "b"], [[Value.null, Value.int 2]]⟩,
        "Error handling missing values: " ++
          "cannot access local variable 'details' where it is not associated with a value") :=
  ⟨by decide, unknown_method_unbound_local_amended ⟨[]⟩
    ⟨["a", "b"], [[Value.null, Value.int 2]]⟩ "bogus" none (by decide)⟩

theorem cellAt_set_self (r : Row) (i : Nat) (x : Value) (h : i < r.length) :
    cellAt (r.set i x) i = x := by
  induction r generalizing i with
  | nil => simp at h
  | cons a as ih =>
    cases i with
    | zero => rfl
    | succ j => exact ih j (by simpa using h)

theorem cellAt_set_ne (r : Row) (i j : Nat) (x : Value) (h : i ≠ j) :
    cellAt (r.set i x) j = cellAt r j := by
  induction r generalizing i j with
  | nil => rfl
  | cons a as ih =>
    cases i with
    | zero =>
      cases j with
      | zero => exact absurd rfl h
      | succ k => rfl
    | succ i' =>
      cases j with
      | zero => rfl
      | succ k => exact ih i' k (by omega)

theorem idxOfName_lt (cols : List String) (c : String) (i : Nat)
    (h : idxOfName cols c = some i) : i < cols.length := by
  induction cols generalizing i with
  | nil => simp [idxOfName] at h
  | cons x xs ih =>
    simp only [idxOfName] at h
    by_cases hx : x = c
    · rw [if_pos hx] at h
      cases h
      simp
    · rw [if_neg hx] at h
      cases hi : idxOfName xs c with
      | none => rw [hi] at h; simp at h
      | some j =>
        rw [hi] at h
        simp only [Option.map] at h
        cases h
        have := ih j hi
        simp only [List.length_cons]
        omega

theorem rows_long_of_rect (df : DataFrame) (i : Nat) (hrect : df.rect = true)
    (hi : i < df.cols.length) : ∀ r ∈ df.rows, i < r.length := by
  intro r hr
  have := (List.all_eq_true.mp hrect) r hr
  have hlen : r.length = df.cols.length := by simpa using this
  omega

theorem colValsAt_mapColAt (df : DataFrame) (i : Nat) (f : Value → Value)
    (h : ∀ r ∈ df.rows, i < r.length) :
    colValsAt (df.mapColAt i f) i = (colValsAt df i).map f := by
  simp only [colValsAt, DataFrame.mapColAt, List.map_map]
  apply List.map_congr_left
  intro r hr
  exact cellAt_set_self _ _ _ (h r hr)

/-- Claim C10: after a successful `text_operations` with `upper`,
`lower`, `title` or `strip`, the target column holds no missing
value: the `astype(str)` coercion renders each missing cell as the
text "nan", which the operation then case-maps ("NAN", "nan", "Nan",
"nan" respectively), so nulls are materialized as text. -/
theorem text_ops_materialize_nulls :
    (∀ (t : Transformer) (df : DataFrame) (c : String) (i : Nat),
      df.colIdx c = some i → df.rect = true →
      colValsAt (text_operations t df c "upper").2.1 i =
        (colValsAt df i).map (fun v => .str (pyUpper (pyStr v))) ∧
      ∀ v ∈ colValsAt (text_operations t df c "upper").2.1 i, v.isNull = false) ∧
    (∀ (t : Transformer) (df : DataFrame) (c : String) (i : Nat),
      df.colIdx c = some i → df.rect = true →
      colValsAt (text_operations t df c "lower").2.1 i =
        (colValsAt df i).map (fun v => .str (pyLower (pyStr v))) ∧
      ∀ v ∈ colValsAt (text_operations t df c "lower").2.1 i, v.isNull = false) ∧
    (∀ (t : Transformer) (df : DataFrame) (c : String) (i : Nat),
      df.colIdx c = some i → df.rect = true →
      colValsAt (text_operations t df c "title").2.1 i =
        (colValsAt df i).map (fun v => .str (pyTitle (pyStr v))) ∧
      ∀ v ∈ colValsAt (text_operations t df c "title").2.1 i, v.isNull = false) ∧
    (∀ (t : Transformer) (df : DataFrame) (c : String) (i : Nat),
      df.colIdx c = some i → df.rect = true →
      colValsAt (text_operations t df c "strip").2.1 i =
        (colValsAt df i).map (fun v => .str (pyStrip (pyStr v))) ∧
      ∀ v ∈ colValsAt (text_operations t df c "strip").2.1 i, v.isNull = false) ∧
    pyUpper (pyStr .null) = "NAN" ∧ pyLower (pyStr .null) = "nan" ∧
    pyTitle (pyStr .null) = "Nan" ∧ pyStrip (pyStr .null) = "nan" := by
  have main : ∀ (t : Transformer) (df : DataFrame) (c : String) (i : Nat)
      (op : String) (f : String → String),
      df.colIdx c = some i → df.rect = true →
      (text_operations t df c op).2.1 = df.mapColAt i (fun v => .str (f (pyStr v))) →
      colValsAt (text_operations t df c op).2.1 i =
        (colValsAt df i).map (fun v => .str (f (pyStr v))) ∧
      ∀ v ∈ colValsAt (text_operations t df c op).2.1 i, v.isNull = false := by
    intro t df c i op f hidx hrect hres
    have hlong := rows_long_of_rect df i hrect (idxOfName_lt _ _ _ hidx)
    have hcol : colValsAt (text_operations t df c op).2.1 i =
        (colValsAt df i).map (fun v => .str (f (pyStr v))) := by
      rw [hres]
      exact colValsAt_mapColAt df i _ hlong
    refine ⟨hcol, ?_⟩
    intro v hv
    rw [hcol] at hv
    obtain ⟨w, _, rfl⟩ := List.mem_map.mp hv
    rfl
  refine ⟨?_, ?_, ?_, ?_, by decide, by decide, by decide, by decide⟩
  · intro t df c i hidx hrect
    exact main t df c i "upper" pyUpper hidx hrect
      (by simp [text_operations, textOpsCore, hidx, runOp])
  · intro t df c i hidx hrect
    exact main t df c i "lower" pyLower hidx hrect
      (by simp [text_operations, textOpsCore, hidx, runOp])
  · intro t df c i hidx hrect
    exact main t df c i "title" pyTitle hidx hrect
      (by simp [text_operations, textOpsCore, hidx, runOp])
  · intro t df c i hidx hrect
    exact main t df c i "strip" pyStrip hidx hrect
      (by simp [text_operations, textOpsCore, hidx, runOp])

/-- Concrete instantiation of claim C10: uppercasing a column with a
missing cell yields the text "NAN" in its place and no nulls. -/
theorem text_ops_materialize_nulls_witness :
    (⟨["c"], [[Value.null], [Value.str "x"]]⟩ : DataFrame).colIdx "c" = some 0 ∧
    (⟨["c"], [[Value.null], [Value.str "x"]]⟩ : DataFrame).rect = true ∧
    colValsAt (text_operations ⟨[]⟩ ⟨["c"], [[Value.null], [Value.str "x"]]⟩
      "c" "upper").2.1 0 =
      (colValsAt ⟨["c"], [[Value.null], [Value.str "x"]]⟩ 0).map
        (fun v => .str (pyUpper (pyStr v))) :=
  ⟨by decide, by decide,
    (text_ops_materialize_nulls.1 ⟨[]⟩ ⟨["c"], [[Value.null], [Value.str "x"]]⟩
      "c" 0 (by decide) (by decide)).1⟩

set_option maxRecDepth 40000 in
/-- Claim C9: the column-name typo heuristic suggests, for each
column whose lowercase form is not in the fixed vocabulary, up to 3
vocabulary candidates whose similarity ratio is at least the 0.6
cutoff (stated by cross-multiplication: `3·(len a + len b) ≤ 5·2·M`),
omitting columns with no candidate; concretely, "nam" is suggested
"name" and "xyz123" receives no suggestion. The heuristic is a total
function, so it never raises. -/
theorem typo_suggestions_threshold :
    (∀ (df : DataFrame) (col : String) (cands : List String),
      (col, cands) ∈ suggest_typo_fixes df →
      ¬ (pyLower col) ∈ common_words ∧ cands ≠ [] ∧ cands.length ≤ 3 ∧
      ∀ w ∈ cands, w ∈ common_words ∧
        3 * (w.data.length + (pyLower col).data.length) ≤
          5 * (2 * simT w.data (pyLower col).data)) ∧
    suggest_typo_fixes ⟨["nam", "xyz123"], []⟩ = [("nam", ["name"])] := by
  constructor
  · intro df col cands hmem
    simp only [suggest_typo_fixes] at hmem
    rw [List.mem_filterMap] at hmem
    obtain ⟨c0, hc0, hf⟩ := hmem
    by_cases hcond : ¬ (getCloseMatches (pyLower c0) common_words 3 3 5).isEmpty = true ∧
        ¬ (pyLower c0) ∈ common_words
    · rw [if_pos hcond] at hf
      cases hf
      refine ⟨hcond.2, ?_, ?_, ?_⟩
      · intro hnil
        exact hcond.1 (by simp [getCloseMatches] at hnil ⊢; simp [hnil])
      · show ((List.take 3 _).map _).length ≤ 3
        rw [List.length_map, List.length_take]
        exact min_le_left _ _
      · intro w hw
        simp only [getCloseMatches, List.mem_map] at hw
        obtain ⟨pr, hpr, rfl⟩ := hw
        have hsorted := List.mem_of_mem_take hpr
        rw [mem_isortLe] at hsorted
        rw [List.mem_filterMap] at hsorted
        obtain ⟨x, hx, hxf⟩ := hsorted
        by_cases hrat : ratioGeFrac (ratioPair x.data (pyLower col).data) 3 5 = true
        · rw [if_pos hrat] at hxf
          cases hxf
          refine ⟨hx, ?_⟩
          simp only [ratioGeFrac, ratioPair] at hrat
          by_cases hz : x.data.length + (pyLower col).data.length = 0
          · rw [hz]
            simp
          · rw [if_neg hz] at hrat
            simpa [ratioPair] using of_decide_eq_true hrat
        · rw [if_neg hrat] at hxf
          cases hxf
    · rw [if_neg hcond] at hf
      cases hf
  · decide

set_option maxRecDepth 40000 in
/-- Concrete instantiation of claim C9's quantified part at the
suggested column "nam". -/
theorem typo_suggestions_threshold_witness :
    ("nam", ["name"]) ∈ suggest_typo_fixes ⟨["nam", "xyz123"], []⟩ ∧
    (¬ (pyLower "nam") ∈ common_words ∧ (["name"] : List String) ≠ [] ∧
      (["name"] : List String).length ≤ 3 ∧
      ∀ w ∈ (["name"] : List String), w ∈ common_words ∧
        3 * (w.data.length + (pyLower "nam").data.length) ≤
          5 * (2 * simT w.data (pyLower "nam").data)) :=
  ⟨by decide, typo_suggestions_threshold.1 ⟨["nam", "xyz123"], []⟩ "nam" ["name"]
    (by decide)⟩

theorem convertCol_length (ty : String) (vals out : List Value)
    (h : convertCol ty vals = .ok out) : out.length = vals.length := by
  unfold convertCol at h
  split at h
  · split at h
    · cases h
      simp
    · cases h
  · split at h
    · cases h
      simp
    · split at h
      · cases h
        simp
      · split at h
        · cases h
          simp
        · split at h
          · cases h
            simp
          · cases h
            rfl

theorem idxOfName_of_mem (cols : List String) (c : String) (h : c ∈ cols) :
    ∃ i, idxOfName cols c = some i := by
  induction cols with
  | nil => cases h
  | cons x xs ih =>
    by_cases hx : x = c
    · exact ⟨0, by simp [idxOfName, hx]⟩
    · rcases List.mem_cons.mp h with rfl | hm
      · exact absurd rfl hx
      · obtain ⟨j, hj⟩ := ih hm
        exact ⟨j + 1, by simp [idxOfName, hx, hj]⟩

theorem idxOfName_getD (cols : List String) (c : String) (i : Nat)
    (h : idxOfName cols c = some i) : cols.getD i "" = c := by
  induction cols generalizing i with
  | nil => simp [idxOfName] at h
  | cons x xs ih =>
    simp only [idxOfName] at h
    by_cases hx : x = c
    · rw [if_pos hx] at h
      cases h
      exact hx
    · rw [if_neg hx] at h
      cases hi : idxOfName xs c with
      | none => rw [hi] at h; simp at h
      | some j =>
        rw [hi] at h
        simp only [Option.map] at h
        cases h
        exact ih j hi

theorem idxOfName_ne_of_names_ne (cols : List String) (c c' : String) (i i' : Nat)
    (h : idxOfName cols c = some i) (h' : idxOfName cols c' = some i')
    (hne : c ≠ c') : i ≠ i' := by
  intro heq
  apply hne
  rw [← idxOfName_getD cols c i h, ← idxOfName_getD cols c' i' h', heq]

theorem col_length (df : DataFrame) (c : String) (i : Nat)
    (h : df.colIdx c = some i) : (df.col c).length = df.nrows := by
  simp [DataFrame.col, h, DataFrame.nrows]

theorem mem_zipWith_set (i : Nat) (rows : List Row) (vals : List Value) (r' : Row)
    (h : r' ∈ List.zipWith (fun r v => r.set i v) rows vals) :
    ∃ r ∈ rows, ∃ v, r' = r.set i v := by
  induction rows generalizing vals with
  | nil => simp at h
  | cons a as ih =>
    cases vals with
    | nil => simp at h
    | cons b bs =>
      simp only [List.zipWith] at h
      rcases List.mem_cons.mp h with rfl | hm
      · exact ⟨a, List.mem_cons_self _ _, b, rfl⟩
      · obtain ⟨r, hr, v, hv⟩ := ih bs hm
        exact ⟨r, List.mem_cons_of_mem _ hr, v, hv⟩

theorem setColAt_cols (df : DataFrame) (i : Nat) (vals : List Value) :
    (df.setColAt i vals).cols = df.cols := rfl

theorem setColAt_nrows (df : DataFrame) (i : Nat) (vals : List Value)
    (hlen : vals.length = df.nrows) : (df.setColAt i vals).nrows = df.nrows := by
  simp [DataFrame.setColAt, DataFrame.nrows, List.length_zipWith, hlen]

theorem setColAt_rect (df : DataFrame) (i : Nat) (vals : List Value)
    (hrect : df.rect = true) : (df.setColAt i vals).rect = true := by
  simp only [DataFrame.rect, List.all_eq_true] at hrect ⊢
  intro r' hr'
  obtain ⟨r, hr, v, rfl⟩ := mem_zipWith_set i df.rows vals r' hr'
  simpa using hrect r hr

theorem map_cellAt_zipWith_set_self (i : Nat) (rows : List Row) (vals : List Value)
    (hlen : vals.length = rows.length) (hlong : ∀ r ∈ rows, i < r.length) :
    (List.zipWith (fun r v => r.set i v) rows vals).map (fun r => cellAt r i) = vals := by
  induction rows generalizing vals with
  | nil =>
    cases vals with
    | nil => rfl
    | cons b bs => simp at hlen
  | cons a as ih =>
    cases vals with
    | nil => simp at hlen
    | cons b bs =>
      simp only [List.zipWith, List.map]
      rw [cellAt_set_self a i b (hlong a (List.mem_cons_self _ _)),
        ih bs (by simpa using hlen) (fun r hr => hlong r (List.mem_cons_of_mem _ hr))]

theorem map_cellAt_zipWith_set_ne (i j : Nat) (rows : List Row) (vals : List Value)
    (hlen : vals.length = rows.length) (hne : i ≠ j) :
    (List.zipWith (fun r v => r.set i v) rows vals).map (fun r => cellAt r j) =
      rows.map (fun r => cellAt r j) := by
  induction rows generalizing vals with
  | nil => rfl
  | cons a as ih =>
    cases vals with
    | nil => simp at hlen
    | cons b bs =>
      simp only [List.zipWith, List.map]
      rw [cellAt_set_ne a i j b hne, ih bs (by simpa using hlen)]

theorem col_eq_of_colIdx (df : DataFrame) (c : String) (i : Nat)
    (h : df.colIdx c = some i) :
    df.col c = df.rows.map (fun r => cellAt r i) := by
  simp [DataFrame.col, h]

theorem col_eq_nil_of_colIdx_none (df : DataFrame) (c : String)
    (h : df.colIdx c = none) : df.col c = [] := by
  simp [DataFrame.col, h]

theorem col_setCol_self (df : DataFrame) (c : String) (i : Nat) (vals : List Value)
    (hidx : df.colIdx c = some i) (hlen : vals.length = df.nrows)
    (hrect : df.rect = true) : (df.setCol c vals).col c = vals := by
  have hlong := rows_long_of_rect df i hrect (idxOfName_lt _ _ _ hidx)
  have h1 : df.setCol c vals = df.setColAt i vals := by
    simp [DataFrame.setCol, hidx]
  have h2 : (df.setColAt i vals).colIdx c = some i := hidx
  rw [h1, col_eq_of_colIdx _ c i h2]
  exact map_cellAt_zipWith_set_self i df.rows vals hlen hlong

theorem col_setCol_ne (df : DataFrame) (c c' : String) (i' : Nat) (vals : List Value)
    (hidx' : df.colIdx c' = some i') (hlen : vals.length = df.nrows)
    (hne : c ≠ c') : (df.setCol c' vals).col c = df.col c := by
  have h1 : df.setCol c' vals = df.setColAt i' vals := by
    simp [DataFrame.setCol, hidx']
  have h2 : (df.setColAt i' vals).colIdx c = df.colIdx c := rfl
  rw [h1]
  cases hi : df.colIdx c with
  | none =>
    rw [col_eq_nil_of_colIdx_none _ c (h2.trans hi),
      col_eq_nil_of_colIdx_none df c hi]
  | some i =>
    rw [col_eq_of_colIdx _ c i (h2.trans hi), col_eq_of_colIdx df c i hi]
    exact map_cellAt_zipWith_set_ne i' i df.rows vals hlen
      (idxOfName_ne_of_names_ne df.cols c' c i' i hidx' hi (fun hcc => hne hcc.symm))

theorem lookup_eq_none_of_not_mem_keys {β : Type} (c : String) (l : List (String × β))
    (h : ¬ c ∈ l.map Prod.fst) : List.lookup c l = none := by
  induction l with
  | nil => rfl
  | cons p ps ih =>
    simp only [List.map_cons, List.mem_cons] at h
    push_neg at h
    have hb : (c == p.1) = false := by simpa using h.1
    simp only [List.lookup, hb]
    exact ih h.2

theorem lookup_cons_ne {β : Type} (c k : String) (v : β) (l : List (String × β))
    (h : c ≠ k) : List.lookup c ((k, v) :: l) = List.lookup c l := by
  have hb : (c == k) = false := by simpa using h
  simp only [List.lookup, hb]

theorem lookup_cons_self {β : Type} (c : String) (v : β) (l : List (String × β)) :
    List.lookup c ((c, v) :: l) = some v := by
  simp [List.lookup]

theorem convertStep_shape (df : DataFrame) (cur : DataFrame) (errs succ : List String)
    (p : String × String) :
    (¬ p.1 ∈ df.cols ∧ convertStep df (cur, errs, succ) p =
        (cur, errs ++ ["Column '" ++ p.1 ++ "' not found"], succ)) ∨
    (p.1 ∈ df.cols ∧ ∃ vals, convertCol p.2 (cur.col p.1) = .ok vals ∧
      convertStep df (cur, errs, succ) p =
        (cur.setCol p.1 vals, errs, succ ++ [p.1 ++ " → " ++ p.2])) ∨
    (p.1 ∈ df.cols ∧ ∃ e, convertCol p.2 (cur.col p.1) = .error e ∧
      convertStep df (cur, errs, succ) p =
        (cur, errs ++ ["Failed to convert '" ++ p.1 ++ "' to " ++ p.2 ++ ": " ++ e],
          succ)) := by
  by_cases hc : p.1 ∈ df.cols
  · cases hconv : convertCol p.2 (cur.col p.1) with
    | ok vals =>
      refine Or.inr (Or.inl ⟨hc, vals, rfl, ?_⟩)
      simp [convertStep, hc, hconv]
    | error e =>
      refine Or.inr (Or.inr ⟨hc, e, rfl, ?_⟩)
      simp [convertStep, hc, hconv]
  · refine Or.inl ⟨hc, ?_⟩
    simp [convertStep, hc]

theorem convertFold_frame_inv (df : DataFrame) (m : List (String × String)) :
    ∀ (cur : DataFrame) (errs succ : List String),
    cur.cols = df.cols → cur.rect = true → cur.nrows = df.nrows →
    ((m.foldl (convertStep df) (cur, errs, succ)).1.cols = df.cols ∧
     (m.foldl (convertStep df) (cur, errs, succ)).1.rect = true ∧
     (m.foldl (convertStep df) (cur, errs, succ)).1.nrows = df.nrows) := by
  induction m with
  | nil => exact fun cur errs succ h1 h2 h3 => ⟨h1, h2, h3⟩
  | cons p ps ih =>
    intro cur errs succ h1 h2 h3
    rcases convertStep_shape df cur errs succ p with
      ⟨hc, hstep⟩ | ⟨hc, vals, hconv, hstep⟩ | ⟨hc, e, hconv, hstep⟩
    · simp only [List.foldl_cons, hstep]
      exact ih _ _ _ h1 h2 h3
    · simp only [List.foldl_cons, hstep]
      have hmemcur : p.1 ∈ cur.cols := by rw [h1]; exact hc
      obtain ⟨i, hidx⟩ := idxOfName_of_mem cur.cols p.1 hmemcur
      have hlen : vals.length = cur.nrows := by
        rw [convertCol_length _ _ _ hconv, col_length cur p.1 i hidx]
      have hset : cur.setCol p.1 vals = cur.setColAt i vals := by
        simp [DataFrame.setCol, DataFrame.colIdx, hidx]
      refine ih _ _ _ ?_ ?_ ?_
      · rw [hset, setColAt_cols, h1]
      · rw [hset]
        exact setColAt_rect cur i vals h2
      · rw [hset, setColAt_nrows cur i vals hlen, h3]
    · simp only [List.foldl_cons, hstep]
      exact ih _ _ _ h1 h2 h3

theorem convertFold_col (df : DataFrame) (m : List (String × String)) :
    ∀ (cur : DataFrame) (errs succ : List String) (c : String),
    cur.cols = df.cols → cur.rect = true → cur.nrows = df.nrows →
    (m.map Prod.fst).Nodup → c ∈ df.cols →
    (m.foldl (convertStep df) (cur, errs, succ)).1.col c =
      (match List.lookup c m with
       | none => cur.col c
       | some ty =>
         match convertCol ty (cur.col c) with
         | .ok vals => vals
         | .error _ => cur.col c) := by
  induction m with
  | nil => exact fun cur errs succ c _ _ _ _ _ => rfl
  | cons p ps ih =>
    intro cur errs succ c h1 h2 h3 hnd hc
    obtain ⟨p1, p2⟩ := p
    have hnd' : (ps.map Prod.fst).Nodup := (List.nodup_cons.mp hnd).2
    have hp1notin : ¬ p1 ∈ ps.map Prod.fst := (List.nodup_cons.mp hnd).1
    rcases convertStep_shape df cur errs succ (p1, p2) with
      ⟨hcmem, hstep⟩ | ⟨hcmem, vals, hconv, hstep⟩ | ⟨hcmem, e, hconv, hstep⟩
    · have hne : c ≠ p1 := fun h => hcmem (h ▸ hc)
      simp only [List.foldl_cons, hstep]
      rw [ih cur _ _ c h1 h2 h3 hnd' hc, lookup_cons_ne c p1 p2 ps hne]
    · have hmemcur : p1 ∈ cur.cols := by rw [h1]; exact hcmem
      obtain ⟨i, hidx⟩ := idxOfName_of_mem cur.cols p1 hmemcur
      have hlen : vals.length = cur.nrows := by
        rw [convertCol_length _ _ _ hconv, col_length cur p1 i hidx]
      have hset : cur.setCol p1 vals = cur.setColAt i vals := by
        simp [DataFrame.setCol, DataFrame.colIdx, hidx]
      have hinv1 : (cur.setCol p1 vals).cols = df.cols := by
        rw [hset, setColAt_cols, h1]
      have hinv2 : (cur.setCol p1 vals).rect = true := by
        rw [hset]
        exact setColAt_rect cur i vals h2
      have hinv3 : (cur.setCol p1 vals).nrows = df.nrows := by
        rw [hset, setColAt_nrows cur i vals hlen, h3]
      by_cases hcp : c = p1
      · subst hcp
        simp only [List.foldl_cons, hstep]
        rw [ih (cur.setCol c vals) _ _ c hinv1 hinv2 hinv3 hnd' hc,
          lookup_eq_none_of_not_mem_keys c ps hp1notin, lookup_cons_self c p2 ps]
        simp only [hconv]
        exact col_setCol_self cur c i vals hidx hlen h2
      · simp only [List.foldl_cons, hstep]
        rw [ih (cur.setCol p1 vals) _ _ c hinv1 hinv2 hinv3 hnd' hc,
          lookup_cons_ne c p1 p2 ps hcp,
          col_setCol_ne cur c p1 i vals hidx hlen hcp]
    · by_cases hcp : c = p1
      · subst hcp
        simp only [List.foldl_cons, hstep]
        rw [ih cur _ _ c h1 h2 h3 hnd' hc,
          lookup_eq_none_of_not_mem_keys c ps hp1notin, lookup_cons_self c p2 ps]
        simp only [hconv]
      · simp only [List.foldl_cons, hstep]
        rw [ih cur _ _ c h1 h2 h3 hnd' hc, lookup_cons_ne c p1 p2 ps hcp]

theorem convertFold_errs_mono (df : DataFrame) (m : List (String × String)) :
    ∀ (acc : DataFrame × List String × List String) (e : String),
    e ∈ acc.2.1 → e ∈ (m.foldl (convertStep df) acc).2.1 := by
  induction m with
  | nil => exact fun acc e he => he
  | cons p ps ih =>
    intro acc e he
    obtain ⟨cur, errs, succ⟩ := acc
    rcases convertStep_shape df cur errs succ p with
      ⟨_, hstep⟩ | ⟨_, vals, _, hstep⟩ | ⟨_, e2, _, hstep⟩
    · simp only [List.foldl_cons, hstep]
      exact ih _ e (List.mem_append_left _ he)
    · simp only [List.foldl_cons, hstep]
      exact ih _ e he
    · simp only [List.foldl_cons, hstep]
      exact ih _ e (List.mem_append_left _ he)

theorem convertFold_err_missing (df : DataFrame) (m : List (String × String)) :
    ∀ (acc : DataFrame × List String × List String) (c ty : String),
    (c, ty) ∈ m → ¬ c ∈ df.cols →
    ("Column '" ++ c ++ "' not found") ∈ (m.foldl (convertStep df) acc).2.1 := by
  induction m with
  | nil =>
    intro acc c ty h
    cases h
  | cons p ps ih =>
    intro acc c ty hmem hc
    obtain ⟨cur, errs, succ⟩ := acc
    rcases List.mem_cons.mp hmem with heq | hmem'
    · cases heq.symm
      rcases convertStep_shape df cur errs succ (c, ty) with
        ⟨_, hstep⟩ | ⟨hcm, _⟩ | ⟨hcm, _⟩
      · simp only [List.foldl_cons, hstep]
        exact convertFold_errs_mono df ps _ _
          (List.mem_append_right _ (List.mem_singleton.mpr rfl))
      · exact absurd hcm hc
      · exact absurd hcm hc
    · rcases convertStep_shape df cur errs succ p with
        ⟨_, hstep⟩ | ⟨_, vals, _, hstep⟩ | ⟨_, e2, _, hstep⟩ <;>
      · simp only [List.foldl_cons, hstep]
        exact ih _ c ty hmem' hc

/-- Counterexample to claim C5 as stated: with one successful
conversion ("a" to integer) and one missing column, the message is
"Successfully converted 1 columns. Errors: Column 'zzz' not found" —
it counts the successes but does not enumerate them: the name "a"
appears nowhere in the message even though column "a" was converted
(its text cell "1" became integer 1). -/
theorem convert_message_omits_success_names :
    (convert_data_types ⟨[]⟩ ⟨["a"], [[Value.str "1"]]⟩
        [("a", "int"), ("zzz", "int")]).2.2 =
      "Successfully converted 1 columns. Errors: Column 'zzz' not found" ∧
    strContains (convert_data_types ⟨[]⟩ ⟨["a"], [[Value.str "1"]]⟩
        [("a", "int"), ("zzz", "int")]).2.2 "a" = false ∧
    (convert_data_types ⟨[]⟩ ⟨["a"], [[Value.str "1"]]⟩
        [("a", "int"), ("zzz", "int")]).2.1.col "a" = [Value.int 1] := by
  refine ⟨by decide, by decide, by decide⟩

/-- Claim C5, amended: `convert_data_types` attempts each mapped
column independently — every column of the table ends up exactly as
its own entry dictates (converted on success, untouched on failure or
when unmapped), regardless of the other entries; the message reports
the COUNT of successful conversions and enumerates a per-column
reason for each missing column; integer conversion coerces
non-parseable values to missing before casting, and datetime
conversion maps non-parseable values to missing. -/
theorem convert_independent_columns_amended :
    (∀ (t : Transformer) (df : DataFrame) (m : List (String × String)) (c : String),
      (m.map Prod.fst).Nodup → df.rect = true → c ∈ df.cols →
      (convert_data_types t df m).2.1.col c = convertedColSpec df m c) ∧
    (∀ (t : Transformer) (df : DataFrame) (m : List (String × String)) (c ty : String),
      (c, ty) ∈ m → ¬ c ∈ df.cols →
      strContains (convert_data_types t df m).2.2
        ("Column '" ++ c ++ "' not found") = true) ∧
    (∀ (vals out : List Value) (i : Nat) (v : Value),
      convertCol "int" vals = .ok out → vals[i]? = some v →
      toNumericVal v = .null → out[i]? = some .null) ∧
    (∀ vals, convertCol "datetime" vals = .ok (vals.map toDatetimeVal)) ∧
    (∀ s, parseNumStr s = none → toNumericVal (.str s) = .null) ∧
    (∀ s, parseDateStr s = none → toDatetimeVal (.str s) = .null) := by
  refine ⟨?_, ?_, ?_, fun vals => rfl, ?_, ?_⟩
  · intro t df m c hnd hrect hc
    have hres : (convert_data_types t df m).2.1 =
        (m.foldl (convertStep df) (df, [], [])).1 := by
      simp [convert_data_types, convertCore, runOp]
    rw [hres, convertFold_col df m df [] [] c rfl hrect rfl hnd hc]
    rfl
  · intro t df m c ty hmem hc
    have herr := convertFold_err_missing df m (df, [], []) c ty hmem hc
    have hne : ¬ (m.foldl (convertStep df) (df, [], [])).2.1.isEmpty = true := by
      rw [List.isEmpty_iff]
      exact List.ne_nil_of_mem herr
    have hmsg : (convert_data_types t df m).2.2 =
        "Successfully converted " ++
            toString (m.foldl (convertStep df) (df, [], [])).2.2.length ++ " columns" ++
          (". Errors: " ++ joinSep "; " (m.foldl (convertStep df) (df, [], [])).2.1) := by
      simp only [convert_data_types, convertCore, runOp]
      rw [if_neg hne]
    rw [hmsg]
    exact strContains_append_pre _ _ _ (strContains_append_pre _ _ _
      (strContains_joinSep_self _ _ _ herr))
  · intro vals out i v h hv hnull
    by_cases hall : ((vals.map toNumericVal).all (fun w => match w with
        | Value.null => true | Value.int _ => true
        | Value.float q => q.den == 1 | _ => false)) = true
    · have hok : convertCol "int" vals = .ok ((vals.map toNumericVal).map
          (fun w => match w with | Value.float q => Value.int q.num | w => w)) := by
        simp [convertCol, hall]
      rw [hok] at h
      cases h
      rw [List.getElem?_map, List.getElem?_map, hv]
      simp [hnull]
    · have hx : convertCol "int" vals =
          .error "cannot safely cast non-equivalent float64 to int64" := by
        simp [convertCol, hall]
      rw [hx] at h
      cases h
  · intro s h
    simp [toNumericVal, h]
  · intro s h
    simp [toDatetimeVal, h]

/-- Concrete instantiation of amended claim C5: on a two-column table
with mapping a→int, zzz→int, column "b" is untouched, column "a" is
exactly its own conversion, and the message carries the per-column
missing reason for "zzz". -/
theorem convert_independent_columns_amended_witness :
    ((([("a", "int"), ("zzz", "int")] : List (String × String)).map Prod.fst).Nodup ∧
      (⟨["a", "b"], [[Value.str "1", Value.int 5]]⟩ : DataFrame).rect = true ∧
      "b" ∈ (⟨["a", "b"], [[Value.str "1", Value.int 5]]⟩ : DataFrame).cols) ∧
    (convert_data_types ⟨[]⟩ ⟨["a", "b"], [[Value.str "1", Value.int 5]]⟩
        [("a", "int"), ("zzz", "int")]).2.1.col "b" =
      convertedColSpec ⟨["a", "b"], [[Value.str "1", Value.int 5]]⟩
        [("a", "int"), ("zzz", "int")] "b" ∧
    strContains (convert_data_types ⟨[]⟩ ⟨["a", "b"], [[Value.str "1", Value.int 5]]⟩
        [("a", "int"), ("zzz", "int")]).2.2 ("Column '" ++ "zzz" ++ "' not found") = true :=
  ⟨⟨by decide, by decide, by decide⟩,
    convert_independent_columns_amended.1 ⟨[]⟩
      ⟨["a", "b"], [[Value.str "1", Value.int 5]]⟩
      [("a", "int"), ("zzz", "int")] "b" (by decide) (by decide) (by decide),
    convert_independent_columns_amended.2.1 ⟨[]⟩
      ⟨["a", "b"], [[Value.str "1", Value.int 5]]⟩
      [("a", "int"), ("zzz", "int")] "zzz" "int" (by decide) (by decide)⟩
